import Mathlib

/-!
Verification of the event-driven notification pipeline of the
`pratilipi-backend-assignment` repository
(`services/notification-service/src/EventProcessor/*`).

The embedding is a shallow, effect-trace model: every external call
(identity lookup over HTTP, `Notification.create` on the store, the mail
transport, the backoff `setTimeout`, the dead-letter `producer.send`) is
recorded as an `Effect`, and the outcome of each call is supplied by an
environment record whose fields are oracles indexed by the attempt number.
Processor functions return the boolean the source returns together with the
list of effects the call performed, in order.  Content payloads, timestamps
and log lines that no claim refers to are not modelled; dropped fields are
noted on each definition.
-/

namespace NotificationPipeline

/-- Priority levels (`NotificationPriority` in models/notification.ts). -/
inductive Priority where
  | critical
  | standard
deriving DecidableEq, Repr

/-- Notification categories (`NotificationType` in models/notification.ts). -/
inductive NotifType where
  | userUpdate
  | orderUpdate
  | promotion
  | email
  | recommendation
deriving DecidableEq, Repr

/-- A JSON scalar, used to model the duck-typed `price` field of a
recommendation item (`typeof rec.price === 'number'` in the source). -/
inductive JsonVal where
  | num (n : Int)
  | str (s : String)
  | boolVal (b : Bool)
  | nullVal
deriving DecidableEq, Repr

/-- JavaScript string truthiness for an optional field: `undefined` and the
empty string are falsy. -/
def strTruthy : Option String → Bool
  | none => false
  | some s => s ≠ ""

/-- One item of a recommendation event.  Every field is optional because the
value comes from `JSON.parse` of an arbitrary message body. -/
structure RecommendationItem where
  productId : Option String := none
  name : Option String := none
  price : Option JsonVal := none
  category : Option String := none
deriving DecidableEq, Repr

/-- An inbound domain event as obtained from `JSON.parse` of a message body:
a duck-typed bag of optional fields, read differently by each processor.
Fields no processor branch reads (`details.message` etc. feed only content
payloads) are not modelled. -/
structure RawEvent where
  userId : Option String := none
  orderId : Option String := none
  eventType : Option String := none
  updateType : Option String := none
  email : Option String := none
  recommendations : Option (List RecommendationItem) := none
  timestamp : Option String := none
deriving DecidableEq, Repr

/-- The document handed to `Notification.create`.  Only the claim-relevant
fields are kept: `content`, `sentAt` and the non-`retryCount` metadata keys
are dropped; `emailSent := none` records that the create call omitted the
field (the schema then defaults it), `retryCount := none` records that the
metadata object carried no `retryCount` key. -/
structure NotificationRecord where
  userId : Option String
  email : Option String
  type : NotifType
  priority : Priority
  read : Bool
  emailSent : Option Bool
  retryCount : Option Nat
deriving DecidableEq, Repr

/-- The `metadata` object of a published dead-letter envelope
(`DLQMetadata` in DeadLetterQueue.ts).  The enclosing published value also
carries the base64 original message and a timestamp, which no claim
inspects and which are not modelled. -/
structure DLQMetadata where
  originalTopic : String
  partition : Nat
  offset : String
  reason : String
deriving DecidableEq, Repr

/-- Message coordinates attached by the consumer when dispatching
(`MessageMetadata` / the per-processor context records). -/
structure MessageMetadata where
  topic : String
  partition : Nat
  offset : String
deriving DecidableEq, Repr

/-- Observable side effects of the pipeline, in execution order. -/
inductive Effect where
  /-- An HTTP GET to the users service for the given user id. -/
  | lookupUser (userId : String)
  /-- A successful `Notification.create` persisting the given document. -/
  | createRecord (r : NotificationRecord)
  /-- An invocation of the mail transport (`sendEmail`). -/
  | sendMail (userId : String)
  /-- A `console.error` after the mail transport rejected (the failure is
  swallowed). -/
  | logMailFailure (msg : String)
  /-- A backoff `setTimeout` of the given number of milliseconds. -/
  | delayMs (ms : Nat)
  /-- A successful `producer.send` of a dead-letter envelope with the given
  message key and metadata. -/
  | dlqPublish (key : String) (metadata : DLQMetadata)
  /-- A `console.error` after `producer.send` to the dead-letter topic
  rejected. -/
  | logDlqFailure (msg : String)
  /-- The `console.error` of the null-body drop path of the consumer. -/
  | logDrop (msg : String)
  /-- A `notification.save()` updating `emailSent` on an existing record
  (`markNotificationProcessed`). -/
  | updateRecord (emailSent : Bool)
deriving DecidableEq, Repr

/-- The documents persisted by the trace, in order. -/
def createdRecords (tr : List Effect) : List NotificationRecord :=
  tr.filterMap fun e =>
    match e with
    | Effect.createRecord r => some r
    | _ => none

/-- The dead-letter envelope metadata published by the trace, in order. -/
def dlqMetas (tr : List Effect) : List DLQMetadata :=
  tr.filterMap fun e =>
    match e with
    | Effect.dlqPublish _ m => some m
    | _ => none

/-- The backoff delays performed by the trace, in order. -/
def delays (tr : List Effect) : List Nat :=
  tr.filterMap fun e =>
    match e with
    | Effect.delayMs ms => some ms
    | _ => none

/-- The email-format regex `^[^\s@]+@[^\s@]+\.[^\s@]+$` shared by
`ProductEventProcessor.isValidEmail` and
`RecommendationEventProcessor.validateEmailFormat`: no whitespace, exactly
one `@` which is not the first character, and after the `@` a dot that has
at least one character on each side. -/
def validateEmailFormat (email : String) : Bool :=
  let cs := email.toList
  let post := (cs.dropWhile (· ≠ '@')).drop 1
  cs.count '@' = 1 &&
  cs.all (fun c => !c.isWhitespace) &&
  !(cs.takeWhile (· ≠ '@')).isEmpty &&
  ((post.drop 1).dropLast.contains '.')

/-! ## Dead-Letter Router (`DeadLetterQueue.ts`)

`producerFail` models the outcome of `producer.send` on the shared broker
connection: `none` means the publish succeeds, `some e` means it rejects
with error message `e`. -/

/-- The fixed dead-letter topic (`DLQ_TOPIC`). -/
def DLQ_TOPIC : String := "dead-letter-queue"

/-- `DeadLetterQueueHandler.queueFailedMessage`: build the message key
`"{originalTopic}-{partition}-{offset}"`, publish the envelope; on publish
failure log and re-throw.  The base64 encoding of the original message is
not modelled (no claim reads it). -/
def queueFailedMessage (producerFail : Option String) (originalTopic : String)
    (metadata : DLQMetadata) : Except String Unit × List Effect :=
  let messageKey := originalTopic ++ "-" ++ toString metadata.partition ++ "-" ++ metadata.offset
  match producerFail with
  | none => (Except.ok (), [Effect.dlqPublish messageKey metadata])
  | some e => (Except.error e, [Effect.logDlqFailure e])

/-- `DeadLetterQueueHandler.handleFailedMessage`: derive the reason from the
error (`error.message || 'Unknown error'`), delegate to
`queueFailedMessage`, and catch any error from it, logging instead of
re-throwing. -/
def handleFailedMessage (producerFail : Option String) (topic : String)
    (errMsg : String) (partition : Nat) (offset : String) :
    Except String Unit × List Effect :=
  let reason := if errMsg = "" then "Unknown error" else errMsg
  let md : DLQMetadata :=
    { originalTopic := topic, partition := partition, offset := offset, reason := reason }
  match queueFailedMessage producerFail topic md with
  | (Except.ok _, tr) => (Except.ok (), tr)
  | (Except.error e, tr) =>
      (Except.ok (), tr ++ [Effect.logDlqFailure ("Failed to handle message and send to DLQ: " ++ e)])

/-! ## Account-lifecycle processor (`UserEventProcessor.ts`)

`UserUpdateEventProcessor`: recursive retry, `MAX_RETRIES = 5`,
`BASE_DELAY = 500`. -/

/-- Outcome of one `getUserEmail` HTTP lookup. -/
inductive LookupResult where
  /-- `USERS_SERVICE_URL` is unset: thrown before any request is made. -/
  | noUrl
  /-- The axios call itself rejected with this message. -/
  | httpFail (msg : String)
  /-- HTTP success; `response.data?.result?.email`, `none` when the body has
  no email. -/
  | found (email : Option String)
deriving DecidableEq, Repr

/-- Environment of the account-lifecycle processor: oracles indexed by the
attempt number (the `retryCount` at which the call happens). -/
structure UserEnv where
  /-- Outcome of the identity lookup on attempt `n`. -/
  lookupAt : Nat → LookupResult
  /-- Outcome of `Notification.create` on attempt `n`: `none` succeeds,
  `some m` rejects with message `m`. -/
  createFail : Nat → Option String
  /-- Outcome of the mail transport on attempt `n`. -/
  mailFail : Nat → Option String
  /-- Outcome of `producer.send` for dead-letter publication. -/
  producerFail : Option String

namespace UserUpdateEventProcessor

/-- `MAX_RETRIES` of `UserUpdateEventProcessor`. -/
def MAX_RETRIES : Nat := 5

/-- `BASE_DELAY` of `UserUpdateEventProcessor` (milliseconds). -/
def BASE_DELAY : Nat := 500

/-- `getUserEmail`: missing service URL throws unwrapped; an axios failure
is wrapped as `Failed to retrieve user details: ...`; otherwise the
optional email of the response is returned. -/
def getUserEmail (res : LookupResult) (userId : String) :
    Except String (Option String) × List Effect :=
  match res with
  | LookupResult.noUrl => (Except.error "Users Service URL is not configured", [])
  | LookupResult.httpFail m =>
      (Except.error ("Failed to retrieve user details: " ++ m), [Effect.lookupUser userId])
  | LookupResult.found e => (Except.ok e, [Effect.lookupUser userId])

/-- `handleCriticalNotification`: for critical priority invoke the mail
transport; a transport rejection is caught and only logged. -/
def handleCriticalNotification (mailFail : Option String) (priority : Priority)
    (userId : String) : List Effect :=
  match priority with
  | Priority.critical =>
      match mailFail with
      | none => [Effect.sendMail userId]
      | some m => [Effect.sendMail userId, Effect.logMailFailure m]
  | Priority.standard => []

/-- `createNotificationForEvent` at attempt `n`: resolve the recipient, on a
missing email warn and return `null` (soft-success, no record), otherwise
persist the record (`createNotificationRecord`, with `read := false`,
`emailSent := false` and `metadata.retryCount := retryCount`) and run
`handleCriticalNotification`.  Any error is re-thrown wrapped as
`Notification processing failed: ...`.  The sole call site fixes
`type := USER_UPDATE` and `priority := CRITICAL`. -/
def createNotificationForEvent (env : UserEnv) (n : Nat) (userId : Option String)
    (retryCount : Nat) : Except String (Option NotificationRecord) × List Effect :=
  match getUserEmail (env.lookupAt n) (userId.getD "") with
  | (Except.error e, tr) => (Except.error ("Notification processing failed: " ++ e), tr)
  | (Except.ok none, tr) => (Except.ok none, tr)
  | (Except.ok (some userEmail), tr) =>
      match env.createFail n with
      | some m => (Except.error ("Notification processing failed: " ++ m), tr)
      | none =>
          let r : NotificationRecord :=
            { userId := userId, email := some userEmail, type := NotifType.userUpdate,
              priority := Priority.critical, read := false, emailSent := some false,
              retryCount := some retryCount }
          (Except.ok (some r),
            tr ++ [Effect.createRecord r] ++
              handleCriticalNotification (env.mailFail n) Priority.critical (userId.getD ""))

/-- `processUserUpdateEventWithRetry`: try the attempt; on an error, while
`retryCount < MAX_RETRIES` back off `2 ^ retryCount * BASE_DELAY` and
re-invoke with `retryCount + 1`; once the budget is exhausted hand the last
error to `DeadLetterQueueHandler.handleFailedMessage` and return `false`. -/
def processUserUpdateEventWithRetry (env : UserEnv) (ev : RawEvent)
    (ctx : MessageMetadata) (retryCount : Nat) : Bool × List Effect :=
  match createNotificationForEvent env retryCount ev.userId retryCount with
  | (Except.ok _, tr) => (true, tr)
  | (Except.error e, tr) =>
      if h : retryCount < MAX_RETRIES then
        let rest := processUserUpdateEventWithRetry env ev ctx (retryCount + 1)
        (rest.fst, tr ++ [Effect.delayMs (2 ^ retryCount * BASE_DELAY)] ++ rest.snd)
      else
        let dlq := handleFailedMessage env.producerFail ctx.topic e ctx.partition ctx.offset
        (false, tr ++ dlq.snd)
termination_by MAX_RETRIES - retryCount
decreasing_by omega

end UserUpdateEventProcessor

/-! ## Order-lifecycle processor (`OrderEventProcessor.ts`)

`OrderUpdateEventProcessor`: recursive retry, `MAX_RETRIES = 3`, base delay
hard-coded `1000`. -/

/-- Environment of the order-lifecycle processor, oracles indexed by the
attempt number. -/
structure OrderEnv where
  /-- Outcome of the identity lookup on attempt `n`. -/
  lookupAt : Nat → LookupResult
  /-- Outcome of `Notification.create` on attempt `n`. -/
  createFail : Nat → Option String
  /-- Outcome of the mail transport on attempt `n`. -/
  mailFail : Nat → Option String
  /-- Outcome of `producer.send` for dead-letter publication. -/
  producerFail : Option String

namespace OrderUpdateEventProcessor

/-- `MAX_RETRIES` of `OrderUpdateEventProcessor`. -/
def MAX_RETRIES : Nat := 3

/-- `validateEvent`: a falsy `userId` throws
`Invalid Order Event - Missing userId`. -/
def validateEvent (ev : RawEvent) : Except String Unit :=
  if strTruthy ev.userId then Except.ok ()
  else Except.error "Invalid Order Event - Missing userId"

/-- `getUserEmail` of the order processor: unlike the account-lifecycle
variant, a response without an email is coerced to the empty string after a
warning, so the caller cannot distinguish a missing recipient. -/
def getUserEmail (res : LookupResult) (userId : String) :
    Except String String × List Effect :=
  match res with
  | LookupResult.noUrl => (Except.error "Users Service URL is not configured", [])
  | LookupResult.httpFail m =>
      (Except.error ("Failed to retrieve user details: " ++ m), [Effect.lookupUser userId])
  | LookupResult.found none => (Except.ok "", [Effect.lookupUser userId])
  | LookupResult.found (some e) => (Except.ok e, [Effect.lookupUser userId])

/-- `handleEmailNotification`: for `ORDER_UPDATE` (always the case here)
invoke the mail transport; a rejection is caught and only logged. -/
def handleEmailNotification (mailFail : Option String) (type : NotifType)
    (userId : String) : List Effect :=
  match type with
  | NotifType.orderUpdate =>
      match mailFail with
      | none => [Effect.sendMail userId]
      | some m => [Effect.sendMail userId, Effect.logMailFailure m]
  | _ => []

/-- `createNotificationForEvent` at attempt `n`: resolve the recipient
(possibly to the empty string), always persist via `saveNotification`
(`read := false`; the create call passes no `emailSent` and its metadata is
`{ retryCount }`), then run `handleEmailNotification`.  Errors re-throw
wrapped as `Notification processing failed: ...`.  The sole call site fixes
`type := ORDER_UPDATE` and `priority := CRITICAL`. -/
def createNotificationForEvent (env : OrderEnv) (n : Nat) (userId : String)
    (retryCount : Nat) : Except String NotificationRecord × List Effect :=
  match getUserEmail (env.lookupAt n) userId with
  | (Except.error e, tr) => (Except.error ("Notification processing failed: " ++ e), tr)
  | (Except.ok userEmail, tr) =>
      match env.createFail n with
      | some m => (Except.error ("Notification processing failed: " ++ m), tr)
      | none =>
          let r : NotificationRecord :=
            { userId := some userId, email := some userEmail, type := NotifType.orderUpdate,
              priority := Priority.critical, read := false, emailSent := none,
              retryCount := some retryCount }
          (Except.ok r,
            tr ++ [Effect.createRecord r] ++
              handleEmailNotification (env.mailFail n) NotifType.orderUpdate userId)

/-- The body of the `try` block of `processOrderUpdateEventWithRetry`:
`validateEvent` followed by `processOrderEvent` (which delegates to
`createNotificationForEvent`). -/
def orderAttempt (env : OrderEnv) (ev : RawEvent) (retryCount : Nat) :
    Except String Unit × List Effect :=
  match validateEvent ev with
  | Except.error e => (Except.error e, [])
  | Except.ok _ =>
      match createNotificationForEvent env retryCount (ev.userId.getD "") retryCount with
      | (Except.error e, tr) => (Except.error e, tr)
      | (Except.ok _, tr) => (Except.ok (), tr)

/-- `processOrderUpdateEventWithRetry`: validate, then attempt
(`processOrderEvent`); on an error, while `retryCount < MAX_RETRIES` back
off `2 ^ retryCount * 1000` and re-invoke with `retryCount + 1`; once the
budget is exhausted hand the last error to `handleFailedMessage` and return
`false`. -/
def processOrderUpdateEventWithRetry (env : OrderEnv) (ev : RawEvent)
    (ctx : MessageMetadata) (retryCount : Nat) : Bool × List Effect :=
  match orderAttempt env ev retryCount with
  | (Except.ok _, tr) => (true, tr)
  | (Except.error e, tr) =>
      if h : retryCount < MAX_RETRIES then
        let rest := processOrderUpdateEventWithRetry env ev ctx (retryCount + 1)
        (rest.fst, tr ++ [Effect.delayMs (2 ^ retryCount * 1000)] ++ rest.snd)
      else
        let dlq := handleFailedMessage env.producerFail ctx.topic e ctx.partition ctx.offset
        (false, tr ++ dlq.snd)
termination_by MAX_RETRIES - retryCount
decreasing_by omega

end OrderUpdateEventProcessor

/-! ## Catalog processor (`ProductEventProcessor.ts`, inside
`NotificationEventProcessor.ts`)

`ProductEventProcessor`: recursive retry, `MAX_RETRIES = 5`,
`BASE_DELAY = 500`; no identity lookup on the event path (the email comes
from the event itself); also a cron sweep (`sendRandomUserNotifications`). -/

/-- A user document returned by the users service for the catalog sweep. -/
structure SweepUser where
  _id : String
  email : String
  name : String
  /-- `preferences?.promotions`: `none` when the key is absent. -/
  promotions : Option Bool
deriving DecidableEq, Repr

/-- Environment of the catalog processor. -/
structure ProductEnv where
  /-- Outcome of `Notification.create` on attempt `n` of the event path. -/
  createFail : Nat → Option String
  /-- Outcome of the mail transport on attempt `n` of the event path. -/
  mailFail : Nat → Option String
  /-- Outcome of `producer.send` for dead-letter publication. -/
  producerFail : Option String
  /-- Outcome of the `getRandomUsers` fetch of the sweep: the user list of
  the response, or the axios error. -/
  fetchUsers : Except String (List SweepUser)
  /-- The random `sort(() => 0.5 - Math.random())` of `getRandomUsers`,
  supplied by the environment since it is nondeterministic. -/
  shuffle : List SweepUser → List SweepUser
  /-- Outcome of `Notification.create` for the `i`-th user of the sweep. -/
  sweepCreateFail : Nat → Option String
  /-- Outcome of the mail transport for the `i`-th user of the sweep. -/
  sweepMailFail : Nat → Option String

namespace ProductEventProcessor

/-- `MAX_RETRIES` of `ProductEventProcessor`. -/
def MAX_RETRIES : Nat := 5

/-- `BASE_DELAY` of `ProductEventProcessor` (milliseconds). -/
def BASE_DELAY : Nat := 500

/-- `RANDOM_USERS_COUNT` of the sweep. -/
def RANDOM_USERS_COUNT : Nat := 10

/-- `createNotificationForEvent`: persist the document (`read := false`, no
`emailSent` field passed) and, for `PROMOTION` (always the case), send the
promotional email with a swallowed failure.  Unlike the other processors
the create error is re-thrown unwrapped. -/
def createNotificationForEvent (createFail mailFail : Option String)
    (userId email : Option String) (retryCount : Option Nat) :
    Except String NotificationRecord × List Effect :=
  match createFail with
  | some m => (Except.error m, [])
  | none =>
      let r : NotificationRecord :=
        { userId := userId, email := email, type := NotifType.promotion,
          priority := Priority.standard, read := false, emailSent := none,
          retryCount := retryCount }
      let mailEff :=
        match mailFail with
        | none => [Effect.sendMail (userId.getD "")]
        | some m => [Effect.sendMail (userId.getD ""), Effect.logMailFailure m]
      (Except.ok r, [Effect.createRecord r] ++ mailEff)

/-- `processProductEventWithRetry`: try the attempt (metadata carries
`retryCount`); on an error, while `retryCount < MAX_RETRIES` back off
`2 ^ retryCount * BASE_DELAY` and re-invoke with `retryCount + 1`; once the
budget is exhausted hand the last error to `handleFailedMessage` and return
`false`. -/
def processProductEventWithRetry (env : ProductEnv) (ev : RawEvent)
    (ctx : MessageMetadata) (retryCount : Nat) : Bool × List Effect :=
  match createNotificationForEvent (env.createFail retryCount) (env.mailFail retryCount)
      ev.userId ev.email (some retryCount) with
  | (Except.ok _, tr) => (true, tr)
  | (Except.error e, tr) =>
      if h : retryCount < MAX_RETRIES then
        let rest := processProductEventWithRetry env ev ctx (retryCount + 1)
        (rest.fst, tr ++ [Effect.delayMs (2 ^ retryCount * BASE_DELAY)] ++ rest.snd)
      else
        let dlq := handleFailedMessage env.producerFail ctx.topic e ctx.partition ctx.offset
        (false, tr ++ dlq.snd)
termination_by MAX_RETRIES - retryCount
decreasing_by omega

/-- `getRandomUsers`: fetch all users, keep those with a well-formed email
whose `preferences.promotions` is not `false`, shuffle, take the first
`RANDOM_USERS_COUNT`. -/
def getRandomUsers (env : ProductEnv) (count : Nat) :
    Except String (List SweepUser) × List Effect :=
  match env.fetchUsers with
  | Except.error m =>
      (Except.error ("Failed to retrieve users: " ++ m), [Effect.lookupUser ""])
  | Except.ok users =>
      let eligible := users.filter fun u =>
        validateEmailFormat u.email && u.promotions ≠ some false
      (Except.ok ((env.shuffle eligible).take count), [Effect.lookupUser ""])

/-- The per-user notification creations of the sweep, effects in list
order (the source fires them with `Promise.all`; no claim depends on the
interleaving). -/
def sweepCreations (env : ProductEnv) : List SweepUser → Nat → List Effect
  | [], _ => []
  | u :: rest, i =>
      (createNotificationForEvent (env.sweepCreateFail i) (env.sweepMailFail i)
        (some u._id) (some u.email) none).snd ++ sweepCreations env rest (i + 1)

/-- `sendRandomUserNotifications`: the periodic catalog sweep — sample the
eligible users and create a promotional notification for each (the sweep
metadata carries a batch id but no `retryCount`). -/
def sendRandomUserNotifications (env : ProductEnv) : List Effect :=
  match getRandomUsers env RANDOM_USERS_COUNT with
  | (Except.error _, tr) => tr
  | (Except.ok users, tr) => tr ++ sweepCreations env users 0

end ProductEventProcessor

/-! ## Recommendation processor (`RecommendationEventProcessor.ts`)

`RecommendationEventProcessor`: iterative retry (`while` loop),
`maxRetries = 3`, base delay hard-coded `1000`; validates the full item
list before any network call; also a cron sweep resending
persisted-but-undelivered notifications (which creates no records). -/

/-- A user as assembled by `getUserData` (defaults applied): `optedIn`
models the truthiness of `preferences?.recommendations`. -/
structure RecUser where
  _id : String
  email : String
  name : String
  optedIn : Bool
deriving DecidableEq, Repr

/-- Environment of the recommendation processor, oracles indexed by the
iteration of the retry loop.  `getUserData` returns `null` both on a
non-200/failed request and on a response without an email, so its outcome
is a single `Option RecUser`. -/
structure RecEnv where
  /-- Outcome of the `getUserData` lookup on iteration `n`. -/
  getUserAt : Nat → Option RecUser
  /-- Outcome of `Notification.create` on iteration `n`. -/
  createFail : Nat → Option String
  /-- Outcome of the second `getUserData` lookup performed inside
  `sendEmailNotification` on iteration `n`. -/
  innerLookupAt : Nat → Option RecUser
  /-- Outcome of the mail transport inside `sendEmailNotification` on
  iteration `n`. -/
  innerMailFail : Nat → Option String
  /-- Outcome of `producer.send` for dead-letter publication. -/
  producerFail : Option String

namespace RecommendationEventProcessor

/-- `maxRetries` of `RecommendationEventProcessor`. -/
def maxRetries : Nat := 3

/-- `validateRecommendationItem`:
`Boolean(rec.productId && rec.name && typeof rec.price === 'number' && rec.category)`. -/
def validateRecommendationItem (rec : RecommendationItem) : Bool :=
  strTruthy rec.productId && strTruthy rec.name &&
    (match rec.price with
     | some (JsonVal.num _) => true
     | _ => false) &&
    strTruthy rec.category

/-- `validateEvent`: a truthy `userId`, a present `recommendations` array
that is non-empty, and every item valid. -/
def validateEvent (ev : RawEvent) : Bool :=
  strTruthy ev.userId &&
    (match ev.recommendations with
     | none => false
     | some recs => recs.length > 0 && recs.all validateRecommendationItem)

/-- `sendEmailNotification` for a just-created record (`emailSent` is
`false`, so the early return does not fire): look the user up again; a
missing user or ill-formed email throws; an opted-out user marks the
record processed without sending; otherwise send and mark processed.
Every error is caught and only logged, so the function never throws. -/
def sendEmailNotification (lookupRes : Option RecUser) (mailFail : Option String) :
    List Effect :=
  match lookupRes with
  | none => [Effect.lookupUser "", Effect.logMailFailure "Invalid or missing email for user"]
  | some user =>
      if !validateEmailFormat user.email then
        [Effect.lookupUser user._id, Effect.logMailFailure "Invalid or missing email for user"]
      else if !user.optedIn then
        [Effect.lookupUser user._id, Effect.updateRecord false]
      else
        match mailFail with
        | none => [Effect.lookupUser user._id, Effect.sendMail user._id, Effect.updateRecord true]
        | some m => [Effect.lookupUser user._id, Effect.sendMail user._id, Effect.logMailFailure m]

/-- `createNotification`: persist the record for the event — `read :=
false`, `emailSent := false`, priority `STANDARD`, and metadata
`{ recommendationSource, generatedAt, userPreferences }`, which carries no
`retryCount` key. -/
def createNotification (createFail : Option String) (user : RecUser) :
    Except String NotificationRecord × List Effect :=
  match createFail with
  | some m => (Except.error m, [])
  | none =>
      let r : NotificationRecord :=
        { userId := some user._id, email := some user.email,
          type := NotifType.recommendation, priority := Priority.standard,
          read := false, emailSent := some false, retryCount := none }
      (Except.ok r, [Effect.createRecord r])

/-- Result of one iteration of the `try` block of the retry loop. -/
inductive AttemptResult where
  /-- `validateEvent` failed: `return false` with no retry. -/
  | invalid
  /-- `return true` (opt-out soft-success or full success). -/
  | success
  /-- The iteration threw with this message. -/
  | failed (msg : String)
deriving DecidableEq, Repr

/-- The body of the `try` block at iteration `n`: validate, look the user
up (a `null` user throws `User data not found for userId: ...`), return
`true` for an opted-out user, otherwise create the record and run
`sendEmailNotification`. -/
def attemptAt (env : RecEnv) (ev : RawEvent) (n : Nat) : AttemptResult × List Effect :=
  if !validateEvent ev then (AttemptResult.invalid, [])
  else
    match env.getUserAt n with
    | none =>
        (AttemptResult.failed ("User data not found for userId: " ++ ev.userId.getD ""),
          [Effect.lookupUser (ev.userId.getD "")])
    | some user =>
        if !user.optedIn then (AttemptResult.success, [Effect.lookupUser (ev.userId.getD "")])
        else
          match createNotification (env.createFail n) user with
          | (Except.error m, tr) =>
              (AttemptResult.failed m, Effect.lookupUser (ev.userId.getD "") :: tr)
          | (Except.ok _, tr) =>
              (AttemptResult.success,
                Effect.lookupUser (ev.userId.getD "") :: tr ++
                  sendEmailNotification (env.innerLookupAt n) (env.innerMailFail n))

/-- The `while (retryCount < maxRetries)` loop of
`processRecommendationEvent`, entered with the current `retryCount`: on a
throw the count is incremented first; at `retryCount == maxRetries` the
event is dead-lettered, otherwise the loop backs off
`2 ^ retryCount * 1000` with the already-incremented count and iterates. -/
def processLoop (env : RecEnv) (ev : RawEvent) (ctx : MessageMetadata)
    (retryCount : Nat) : Bool × List Effect :=
  if h : retryCount < maxRetries then
    match attemptAt env ev retryCount with
    | (AttemptResult.invalid, tr) => (false, tr)
    | (AttemptResult.success, tr) => (true, tr)
    | (AttemptResult.failed msg, tr) =>
        let rc := retryCount + 1
        if rc = maxRetries then
          let dlq := handleFailedMessage env.producerFail ctx.topic msg ctx.partition ctx.offset
          (false, tr ++ dlq.snd)
        else
          let rest := processLoop env ev ctx rc
          (rest.fst, tr ++ [Effect.delayMs (2 ^ rc * 1000)] ++ rest.snd)
  else (false, [])
termination_by maxRetries - retryCount
decreasing_by omega

/-- `processRecommendationEvent`: run the retry loop from `retryCount = 0`. -/
def processRecommendationEvent (env : RecEnv) (ev : RawEvent)
    (ctx : MessageMetadata) : Bool × List Effect :=
  processLoop env ev ctx 0

end RecommendationEventProcessor

/-! ## Priority consumers and router (`NotificationEventProcessor.ts`)

`NotificationProcessorService`: the two `eachMessage` handlers.  A `null`
message value is logged and dropped; the body is then fed to `JSON.parse`
OUTSIDE the `try` block, so a parse failure propagates; the matching
processor runs inside the `try`; a `false` result triggers a second,
router-level dead-letter publish (`handleFailedProcessing`), and an error
escaping the `try` triggers `handleProcessingError`, whose own publish
failure propagates to the broker client. -/

namespace NotificationProcessorService

/-- `handleFailedProcessing`: when the processor returned `false`, publish
a router-level dead-letter envelope with the fixed reason string, directly
via `queueFailedMessage` (whose failure is NOT caught here). -/
def handleFailedProcessing (producerFail : Option String) (processingResult : Bool)
    (topic : String) (metadata : MessageMetadata) (reason : String) :
    Except String Unit × List Effect :=
  if processingResult then (Except.ok (), [])
  else
    queueFailedMessage producerFail topic
      { originalTopic := metadata.topic, partition := metadata.partition,
        offset := metadata.offset, reason := reason }

/-- `handleProcessingError`: log and publish a dead-letter envelope whose
reason is the caught error message, directly via `queueFailedMessage`
(whose failure is NOT caught). -/
def handleProcessingError (producerFail : Option String) (errMsg : String)
    (topic : String) (metadata : MessageMetadata) :
    Except String Unit × List Effect :=
  queueFailedMessage producerFail topic
    { originalTopic := metadata.topic, partition := metadata.partition,
      offset := metadata.offset, reason := errMsg }

/-- `processHighPriorityMessage`: `value = none` models a `null` message
value (logged and dropped); `parsed` is the outcome of
`JSON.parse (value)` — `none` when the body (empty included, since an empty
buffer is truthy) does not parse, in which case the handler throws before
reaching the `try` block.  Topic dispatch: `user-events` and
`order-events`; any other topic leaves `processingResult = false`. -/
def processHighPriorityMessage (uenv : UserEnv) (oenv : OrderEnv)
    (routerProducerFail : Option String) (topic : String) (value : Option String)
    (parsed : Option RawEvent) (partition : Nat) (offset : String) :
    Except String Unit × List Effect :=
  match value with
  | none => (Except.ok (), [Effect.logDrop "Received null message value"])
  | some _ =>
      match parsed with
      | none => (Except.error "JSON.parse: unexpected token", [])
      | some event =>
          let metadata : MessageMetadata :=
            { topic := topic, partition := partition, offset := offset }
          let pres : Bool × List Effect :=
            if topic = "user-events" then
              UserUpdateEventProcessor.processUserUpdateEventWithRetry uenv event metadata 0
            else if topic = "order-events" then
              OrderUpdateEventProcessor.processOrderUpdateEventWithRetry oenv event metadata 0
            else (false, [])
          match handleFailedProcessing routerProducerFail pres.fst topic metadata
              "High Priority Event Processing Failed" with
          | (Except.ok _, tr) => (Except.ok (), pres.snd ++ tr)
          | (Except.error e, tr) =>
              let hpe := handleProcessingError routerProducerFail e topic metadata
              (hpe.fst, pres.snd ++ tr ++ hpe.snd)

/-- `processStandardPriorityMessage`: same shape for `product-events` and
`recommendation-events`. -/
def processStandardPriorityMessage (penv : ProductEnv) (renv : RecEnv)
    (routerProducerFail : Option String) (topic : String) (value : Option String)
    (parsed : Option RawEvent) (partition : Nat) (offset : String) :
    Except String Unit × List Effect :=
  match value with
  | none => (Except.ok (), [Effect.logDrop "Received null message value"])
  | some _ =>
      match parsed with
      | none => (Except.error "JSON.parse: unexpected token", [])
      | some event =>
          let metadata : MessageMetadata :=
            { topic := topic, partition := partition, offset := offset }
          let pres : Bool × List Effect :=
            if topic = "product-events" then
              ProductEventProcessor.processProductEventWithRetry penv event metadata 0
            else if topic = "recommendation-events" then
              RecommendationEventProcessor.processRecommendationEvent renv event metadata
            else (false, [])
          match handleFailedProcessing routerProducerFail pres.fst topic metadata
              "Standard Priority Event Processing Failed" with
          | (Except.ok _, tr) => (Except.ok (), pres.snd ++ tr)
          | (Except.error e, tr) =>
              let hpe := handleProcessingError routerProducerFail e topic metadata
              (hpe.fst, pres.snd ++ tr ++ hpe.snd)

end NotificationProcessorService

/-! ## Trace-projection lemmas -/

theorem createdRecords_append (a b : List Effect) :
    createdRecords (a ++ b) = createdRecords a ++ createdRecords b :=
  List.filterMap_append a b _

theorem dlqMetas_append (a b : List Effect) :
    dlqMetas (a ++ b) = dlqMetas a ++ dlqMetas b :=
  List.filterMap_append a b _

theorem delays_append (a b : List Effect) :
    delays (a ++ b) = delays a ++ delays b :=
  List.filterMap_append a b _

theorem append_ne_empty_of_left (p s : String) (h : p.length > 0) : p ++ s ≠ "" := by
  intro he
  have := congrArg String.length he
  rw [String.length_append] at this
  simp at this
  omega

theorem wrap_ne_empty (s : String) : "Notification processing failed: " ++ s ≠ "" :=
  append_ne_empty_of_left _ s (by decide)

/-- `handleFailedMessage` with a working producer publishes exactly the one
envelope built from its arguments (given a nonempty error message). -/
theorem handleFailedMessage_ok (topic errMsg : String) (partition : Nat) (offset : String)
    (hne : errMsg ≠ "") :
    handleFailedMessage none topic errMsg partition offset =
      (Except.ok (),
        [Effect.dlqPublish (topic ++ "-" ++ toString partition ++ "-" ++ offset)
          { originalTopic := topic, partition := partition, offset := offset,
            reason := errMsg }]) := by
  simp only [handleFailedMessage, queueFailedMessage, if_neg hne]

/-- `handleFailedMessage` persists nothing, performs no backoff, and
returns without raising, whatever the producer outcome. -/
theorem handleFailedMessage_quiet (producerFail : Option String) (topic errMsg : String)
    (partition : Nat) (offset : String) :
    createdRecords (handleFailedMessage producerFail topic errMsg partition offset).snd = [] ∧
    delays (handleFailedMessage producerFail topic errMsg partition offset).snd = [] ∧
    (handleFailedMessage producerFail topic errMsg partition offset).fst = Except.ok () := by
  cases producerFail <;>
    simp [handleFailedMessage, queueFailedMessage, createdRecords, delays]

theorem delay_chain (b x m : Nat) :
    (2 ^ x * b) :: (List.range m).map (fun i => 2 ^ (x + 1 + i) * b) =
    (List.range (m + 1)).map (fun i => 2 ^ (x + i) * b) := by
  rw [List.range_succ_eq_map, List.map_cons, List.map_map]
  refine congrArg₂ _ (by simp) (List.map_congr_left ?_)
  intro i _
  simp only [Function.comp_apply]
  rw [show x + Nat.succ i = x + 1 + i by omega]

/-! ## Account-lifecycle processor lemmas -/

namespace UserUpdateEventProcessor

/-- The canonical successful record of the account-lifecycle processor. -/
def mkRecord (userId : Option String) (email : String) (retryCount : Nat) :
    NotificationRecord :=
  { userId := userId, email := some email, type := NotifType.userUpdate,
    priority := Priority.critical, read := false, emailSent := some false,
    retryCount := some retryCount }

/-- When persistence rejects on every attempt (the recipient resolving
fine), the account-lifecycle chain returns `false`, creates no record, and
publishes exactly one dead-letter envelope whose reason is the wrapped
message of the last (sixth, index `5`) error. -/
theorem userAllFail (env : UserEnv) (ev : RawEvent) (ctx : MessageMetadata)
    (em f : Nat → String)
    (hl : ∀ n, env.lookupAt n = LookupResult.found (some (em n)))
    (hc : ∀ n, env.createFail n = some (f n))
    (hp : env.producerFail = none) :
    ∀ rc, (processUserUpdateEventWithRetry env ev ctx rc).fst = false ∧
      createdRecords (processUserUpdateEventWithRetry env ev ctx rc).snd = [] ∧
      dlqMetas (processUserUpdateEventWithRetry env ev ctx rc).snd =
        [{ originalTopic := ctx.topic, partition := ctx.partition, offset := ctx.offset,
           reason := "Notification processing failed: " ++ f (max 5 rc) }] := by
  intro rc
  induction rc using processUserUpdateEventWithRetry.induct env ev ctx with
  | case1 x a tr hok =>
      exfalso
      rw [createNotificationForEvent, hl x, hc x] at hok
      simp [getUserEmail] at hok
  | case2 x e tr herr hlt ih =>
      obtain ⟨hfst, hcr, hdlq⟩ := ih
      rw [processUserUpdateEventWithRetry]
      rw [createNotificationForEvent, hl x, hc x]
      simp only [getUserEmail]
      rw [dif_pos hlt]
      have h5 : max 5 (x + 1) = max 5 x := by
        have hM : MAX_RETRIES = 5 := rfl
        omega
      rw [h5] at hdlq
      refine ⟨hfst, ?_, ?_⟩
      · rw [createdRecords_append, createdRecords_append, hcr]
        rfl
      · rw [dlqMetas_append, dlqMetas_append, hdlq]
        rfl
  | case3 x e tr herr hge =>
      rw [processUserUpdateEventWithRetry]
      rw [createNotificationForEvent, hl x, hc x]
      simp only [getUserEmail]
      rw [dif_neg hge]
      have hx : max 5 x = x := by
        have hM : MAX_RETRIES = 5 := rfl
        omega
      rw [hx]
      simp only [handleFailedMessage, queueFailedMessage, hp, if_neg (wrap_ne_empty (f x))]
      simp [createdRecords, dlqMetas]

/-- When persistence rejects on the first `k ≤ 5` attempts and then
succeeds, the account-lifecycle chain returns `true`, creates exactly the
one record carrying `metadata.retryCount = k`, backs off `2 ^ i * 500`
before attempt `i + 1` for each failed attempt `i`, and dead-letters
nothing. -/
theorem userChain (env : UserEnv) (ev : RawEvent) (ctx : MessageMetadata)
    (em f : Nat → String) (k : Nat) (hk : k ≤ 5)
    (hl : ∀ n, env.lookupAt n = LookupResult.found (some (em n)))
    (hf : ∀ i, i < k → env.createFail i = some (f i))
    (hs : env.createFail k = none) :
    ∀ rc, rc ≤ k →
      (processUserUpdateEventWithRetry env ev ctx rc).fst = true ∧
      createdRecords (processUserUpdateEventWithRetry env ev ctx rc).snd =
        [mkRecord ev.userId (em k) k] ∧
      delays (processUserUpdateEventWithRetry env ev ctx rc).snd =
        (List.range (k - rc)).map (fun i => 2 ^ (rc + i) * 500) ∧
      dlqMetas (processUserUpdateEventWithRetry env ev ctx rc).snd = [] := by
  intro rc
  induction rc using processUserUpdateEventWithRetry.induct env ev ctx with
  | case1 x a tr hok =>
      intro hxk
      rcases Nat.lt_or_ge x k with hxlt | hxge
      · exfalso
        rw [createNotificationForEvent, hl x, hf x hxlt] at hok
        simp [getUserEmail] at hok
      · have hxe : x = k := le_antisymm hxk hxge
        subst hxe
        rw [processUserUpdateEventWithRetry]
        rw [createNotificationForEvent, hl x, hs]
        simp only [getUserEmail]
        cases hm : env.mailFail x <;>
          simp [handleCriticalNotification, hm, createdRecords, delays, dlqMetas,
            mkRecord, BASE_DELAY]
  | case2 x e tr herr hlt ih =>
      intro hxk
      have hxlt : x < k := by
        rcases Nat.lt_or_ge x k with h | h
        · exact h
        · exfalso
          have hxe : x = k := le_antisymm hxk h
          subst hxe
          rw [createNotificationForEvent, hl x, hs] at herr
          simp [getUserEmail] at herr
      obtain ⟨hfst, hcr, hdel, hdlq⟩ := ih (by omega)
      rw [processUserUpdateEventWithRetry]
      rw [createNotificationForEvent, hl x, hf x hxlt]
      simp only [getUserEmail]
      rw [dif_pos hlt]
      refine ⟨hfst, ?_, ?_, ?_⟩
      · rw [createdRecords_append, createdRecords_append, hcr]
        rfl
      · rw [delays_append, delays_append, hdel]
        have hone : delays [Effect.delayMs (2 ^ x * BASE_DELAY)] = [2 ^ x * 500] := rfl
        rw [show delays [Effect.lookupUser (ev.userId.getD "")] = [] from rfl, hone]
        rw [List.nil_append, List.cons_append, List.nil_append]
        rw [delay_chain 500 x (k - (x + 1))]
        rw [show k - (x + 1) + 1 = k - x from by omega]
      · rw [dlqMetas_append, dlqMetas_append, hdlq]
        rfl
  | case3 x e tr herr hge =>
      intro hxk
      exfalso
      have hM : MAX_RETRIES = 5 := rfl
      have hxe : x = k := by omega
      subst hxe
      rw [createNotificationForEvent, hl x, hs] at herr
      simp [getUserEmail] at herr

/-- Every record the account-lifecycle attempt persists has
`read = false`, and the attempt never delays or publishes. -/
theorem userAttempt_quiet (env : UserEnv) (n : Nat) (uid : Option String) (rc : Nat) :
    (∀ r ∈ createdRecords (createNotificationForEvent env n uid rc).snd, r.read = false) ∧
    delays (createNotificationForEvent env n uid rc).snd = [] ∧
    dlqMetas (createNotificationForEvent env n uid rc).snd = [] := by
  unfold createNotificationForEvent getUserEmail
  cases env.lookupAt n with
  | noUrl => simp [createdRecords, delays, dlqMetas]
  | httpFail m => simp [createdRecords, delays, dlqMetas]
  | found e =>
      cases e with
      | none => simp [createdRecords, delays, dlqMetas]
      | some em =>
          cases env.createFail n with
          | some m => simp [createdRecords, delays, dlqMetas]
          | none =>
              cases env.mailFail n <;>
                simp [handleCriticalNotification, createdRecords, delays, dlqMetas]

/-- Every record any account-lifecycle retry chain persists has
`read = false`. -/
theorem userRead_false (env : UserEnv) (ev : RawEvent) (ctx : MessageMetadata) :
    ∀ rc, ∀ r ∈ createdRecords (processUserUpdateEventWithRetry env ev ctx rc).snd,
      r.read = false := by
  intro rc
  induction rc using processUserUpdateEventWithRetry.induct env ev ctx with
  | case1 x a tr hok =>
      rw [processUserUpdateEventWithRetry, hok]
      dsimp only
      have hattempt := (userAttempt_quiet env x ev.userId x).1
      rw [hok] at hattempt
      dsimp only at hattempt
      exact hattempt
  | case2 x e tr herr hlt ih =>
      rw [processUserUpdateEventWithRetry, herr]
      dsimp only
      rw [dif_pos hlt]
      intro r hr
      simp only [createdRecords_append, List.mem_append] at hr
      have hattempt := (userAttempt_quiet env x ev.userId x).1
      rw [herr] at hattempt
      dsimp only at hattempt
      rcases hr with (hr | hr) | hr
      · exact hattempt r hr
      · simp [createdRecords] at hr
      · exact ih r hr
  | case3 x e tr herr hge =>
      rw [processUserUpdateEventWithRetry, herr]
      dsimp only
      rw [dif_neg hge]
      intro r hr
      simp only [createdRecords_append, List.mem_append] at hr
      have hattempt := (userAttempt_quiet env x ev.userId x).1
      rw [herr] at hattempt
      dsimp only at hattempt
      rcases hr with hr | hr
      · exact hattempt r hr
      · rw [(handleFailedMessage_quiet env.producerFail ctx.topic e ctx.partition
            ctx.offset).1] at hr
        simp at hr

/-- Any account-lifecycle retry chain performs at most
`MAX_RETRIES - retryCount` backoffs, hence at most `5` retries overall. -/
theorem userDelays_bound (env : UserEnv) (ev : RawEvent) (ctx : MessageMetadata) :
    ∀ rc, (delays (processUserUpdateEventWithRetry env ev ctx rc).snd).length ≤
      MAX_RETRIES - rc := by
  intro rc
  induction rc using processUserUpdateEventWithRetry.induct env ev ctx with
  | case1 x a tr hok =>
      rw [processUserUpdateEventWithRetry, hok]
      dsimp only
      have hattempt := (userAttempt_quiet env x ev.userId x).2.1
      rw [hok] at hattempt
      dsimp only at hattempt
      simp [hattempt]
  | case2 x e tr herr hlt ih =>
      rw [processUserUpdateEventWithRetry, herr]
      dsimp only
      rw [dif_pos hlt]
      have hattempt := (userAttempt_quiet env x ev.userId x).2.1
      rw [herr] at hattempt
      dsimp only at hattempt
      simp only [delays_append, hattempt, List.nil_append, List.length_append]
      have hone : (delays [Effect.delayMs (2 ^ x * BASE_DELAY)]).length = 1 := rfl
      have hM : MAX_RETRIES = 5 := rfl
      omega
  | case3 x e tr herr hge =>
      rw [processUserUpdateEventWithRetry, herr]
      dsimp only
      rw [dif_neg hge]
      have hattempt := (userAttempt_quiet env x ev.userId x).2.1
      rw [herr] at hattempt
      dsimp only at hattempt
      simp [delays_append, hattempt,
        (handleFailedMessage_quiet env.producerFail ctx.topic e ctx.partition ctx.offset).2.1]

end UserUpdateEventProcessor

/-! ## Order-lifecycle processor lemmas -/

namespace OrderUpdateEventProcessor

/-- The canonical successful record of the order-lifecycle processor. -/
def mkRecord (userId email : String) (retryCount : Nat) : NotificationRecord :=
  { userId := some userId, email := some email, type := NotifType.orderUpdate,
    priority := Priority.critical, read := false, emailSent := none,
    retryCount := some retryCount }

/-- The order attempt under a successful lookup and a rejecting create. -/
theorem orderAttempt_fail (env : OrderEnv) (ev : RawEvent) (n : Nat) (em m : String)
    (hv : strTruthy ev.userId = true)
    (hl : env.lookupAt n = LookupResult.found (some em))
    (hc : env.createFail n = some m) :
    orderAttempt env ev n =
      (Except.error ("Notification processing failed: " ++ m),
        [Effect.lookupUser (ev.userId.getD "")]) := by
  rw [orderAttempt]
  simp only [validateEvent, hv, if_true]
  rw [createNotificationForEvent, hl, hc]
  simp [getUserEmail]

/-- The order attempt under a successful lookup and a successful create. -/
theorem orderAttempt_ok (env : OrderEnv) (ev : RawEvent) (n : Nat) (em : String)
    (hv : strTruthy ev.userId = true)
    (hl : env.lookupAt n = LookupResult.found (some em))
    (hc : env.createFail n = none) :
    orderAttempt env ev n =
      (Except.ok (),
        [Effect.lookupUser (ev.userId.getD ""),
          Effect.createRecord (mkRecord (ev.userId.getD "") em n)] ++
          handleEmailNotification (env.mailFail n) NotifType.orderUpdate
            (ev.userId.getD "")) := by
  rw [orderAttempt]
  simp only [validateEvent, hv, if_true]
  rw [createNotificationForEvent, hl, hc]
  simp [getUserEmail, mkRecord]

/-- Every record the order attempt persists has `read = false`, and the
attempt never delays or publishes. -/
theorem orderAttempt_quiet (env : OrderEnv) (ev : RawEvent) (n : Nat) :
    (∀ r ∈ createdRecords (orderAttempt env ev n).snd, r.read = false) ∧
    delays (orderAttempt env ev n).snd = [] ∧
    dlqMetas (orderAttempt env ev n).snd = [] := by
  rw [orderAttempt]
  cases validateEvent ev with
  | error e => simp [createdRecords, delays, dlqMetas]
  | ok _ =>
      rw [createNotificationForEvent]
      cases env.lookupAt n with
      | noUrl => simp [getUserEmail, createdRecords, delays, dlqMetas]
      | httpFail m => simp [getUserEmail, createdRecords, delays, dlqMetas]
      | found e =>
          have hmail : ∀ em : String,
              (∀ r ∈ createdRecords
                  (match env.createFail n with
                   | some m =>
                       (Except.error ("Notification processing failed: " ++ m),
                         ([Effect.lookupUser (ev.userId.getD "")] : List Effect))
                   | none =>
                       (Except.ok (mkRecord (ev.userId.getD "") em n),
                         [Effect.lookupUser (ev.userId.getD ""),
                           Effect.createRecord (mkRecord (ev.userId.getD "") em n)] ++
                           handleEmailNotification (env.mailFail n) NotifType.orderUpdate
                             (ev.userId.getD ""))).snd,
                r.read = false) := by
            intro em
            cases env.createFail n with
            | some m => simp [createdRecords]
            | none =>
                cases env.mailFail n <;>
                  simp [handleEmailNotification, createdRecords, mkRecord]
          cases e with
          | none =>
              simp only [getUserEmail]
              cases env.createFail n with
              | some m => simp [createdRecords, delays, dlqMetas]
              | none =>
                  cases env.mailFail n <;>
                    simp [handleEmailNotification, createdRecords, delays, dlqMetas]
          | some em =>
              simp only [getUserEmail]
              cases env.createFail n with
              | some m => simp [createdRecords, delays, dlqMetas]
              | none =>
                  cases env.mailFail n <;>
                    simp [handleEmailNotification, createdRecords, delays, dlqMetas]

/-- When persistence rejects on every attempt (validation and recipient
resolution fine), the order-lifecycle chain returns `false`, creates no
record, and publishes exactly one dead-letter envelope whose reason is the
wrapped message of the last (fourth, index `3`) error. -/
theorem orderAllFail (env : OrderEnv) (ev : RawEvent) (ctx : MessageMetadata)
    (em f : Nat → String)
    (hv : strTruthy ev.userId = true)
    (hl : ∀ n, env.lookupAt n = LookupResult.found (some (em n)))
    (hc : ∀ n, env.createFail n = some (f n))
    (hp : env.producerFail = none) :
    ∀ rc, (processOrderUpdateEventWithRetry env ev ctx rc).fst = false ∧
      createdRecords (processOrderUpdateEventWithRetry env ev ctx rc).snd = [] ∧
      dlqMetas (processOrderUpdateEventWithRetry env ev ctx rc).snd =
        [{ originalTopic := ctx.topic, partition := ctx.partition, offset := ctx.offset,
           reason := "Notification processing failed: " ++ f (max 3 rc) }] := by
  intro rc
  induction rc using processOrderUpdateEventWithRetry.induct env ev ctx with
  | case1 x a tr hok =>
      exfalso
      rw [orderAttempt_fail env ev x (em x) (f x) hv (hl x) (hc x)] at hok
      simp at hok
  | case2 x e tr herr hlt ih =>
      obtain ⟨hfst, hcr, hdlq⟩ := ih
      rw [processOrderUpdateEventWithRetry]
      rw [orderAttempt_fail env ev x (em x) (f x) hv (hl x) (hc x)]
      dsimp only
      rw [dif_pos hlt]
      have h3 : max 3 (x + 1) = max 3 x := by
        have hM : MAX_RETRIES = 3 := rfl
        omega
      rw [h3] at hdlq
      refine ⟨hfst, ?_, ?_⟩
      · simp only [createdRecords_append, hcr, List.append_nil]
        rfl
      · simp only [dlqMetas_append, hdlq]
        rfl
  | case3 x e tr herr hge =>
      rw [processOrderUpdateEventWithRetry]
      rw [orderAttempt_fail env ev x (em x) (f x) hv (hl x) (hc x)]
      dsimp only
      rw [dif_neg hge]
      have hx : max 3 x = x := by
        have hM : MAX_RETRIES = 3 := rfl
        omega
      rw [hx]
      simp only [handleFailedMessage, queueFailedMessage, hp, if_neg (wrap_ne_empty (f x))]
      simp [createdRecords, dlqMetas]

/-- When persistence rejects on the first `k ≤ 3` attempts and then
succeeds, the order-lifecycle chain returns `true`, creates exactly the one
record carrying `metadata.retryCount = k`, backs off `2 ^ i * 1000` before
attempt `i + 1`, and dead-letters nothing. -/
theorem orderChain (env : OrderEnv) (ev : RawEvent) (ctx : MessageMetadata)
    (em f : Nat → String) (k : Nat) (hk : k ≤ 3)
    (hv : strTruthy ev.userId = true)
    (hl : ∀ n, env.lookupAt n = LookupResult.found (some (em n)))
    (hf : ∀ i, i < k → env.createFail i = some (f i))
    (hs : env.createFail k = none) :
    ∀ rc, rc ≤ k →
      (processOrderUpdateEventWithRetry env ev ctx rc).fst = true ∧
      createdRecords (processOrderUpdateEventWithRetry env ev ctx rc).snd =
        [mkRecord (ev.userId.getD "") (em k) k] ∧
      delays (processOrderUpdateEventWithRetry env ev ctx rc).snd =
        (List.range (k - rc)).map (fun i => 2 ^ (rc + i) * 1000) ∧
      dlqMetas (processOrderUpdateEventWithRetry env ev ctx rc).snd = [] := by
  intro rc
  induction rc using processOrderUpdateEventWithRetry.induct env ev ctx with
  | case1 x a tr hok =>
      intro hxk
      rcases Nat.lt_or_ge x k with hxlt | hxge
      · exfalso
        rw [orderAttempt_fail env ev x (em x) (f x) hv (hl x) (hf x hxlt)] at hok
        simp at hok
      · have hxe : x = k := le_antisymm hxk hxge
        subst hxe
        rw [processOrderUpdateEventWithRetry]
        rw [orderAttempt_ok env ev x (em x) hv (hl x) hs]
        dsimp only
        cases hm : env.mailFail x <;>
          simp [handleEmailNotification, hm, createdRecords, delays, dlqMetas]
  | case2 x e tr herr hlt ih =>
      intro hxk
      have hxlt : x < k := by
        rcases Nat.lt_or_ge x k with h | h
        · exact h
        · exfalso
          have hxe : x = k := le_antisymm hxk h
          subst hxe
          rw [orderAttempt_ok env ev x (em x) hv (hl x) hs] at herr
          simp at herr
      obtain ⟨hfst, hcr, hdel, hdlq⟩ := ih (by omega)
      rw [processOrderUpdateEventWithRetry]
      rw [orderAttempt_fail env ev x (em x) (f x) hv (hl x) (hf x hxlt)]
      dsimp only
      rw [dif_pos hlt]
      refine ⟨hfst, ?_, ?_, ?_⟩
      · simp only [createdRecords_append, hcr]
        rfl
      · simp only [delays_append, hdel]
        rw [show delays [Effect.lookupUser (ev.userId.getD "")] = [] from rfl]
        rw [show delays [Effect.delayMs (2 ^ x * 1000)] = [2 ^ x * 1000] from rfl]
        rw [List.nil_append, List.cons_append, List.nil_append]
        rw [delay_chain 1000 x (k - (x + 1))]
        rw [show k - (x + 1) + 1 = k - x from by omega]
      · simp only [dlqMetas_append, hdlq]
        rfl
  | case3 x e tr herr hge =>
      intro hxk
      exfalso
      have hM : MAX_RETRIES = 3 := rfl
      have hxe : x = k := by omega
      subst hxe
      rw [orderAttempt_ok env ev x (em x) hv (hl x) hs] at herr
      simp at herr

/-- Every record any order-lifecycle retry chain persists has
`read = false`. -/
theorem orderRead_false (env : OrderEnv) (ev : RawEvent) (ctx : MessageMetadata) :
    ∀ rc, ∀ r ∈ createdRecords (processOrderUpdateEventWithRetry env ev ctx rc).snd,
      r.read = false := by
  intro rc
  induction rc using processOrderUpdateEventWithRetry.induct env ev ctx with
  | case1 x a tr hok =>
      rw [processOrderUpdateEventWithRetry, hok]
      dsimp only
      have hattempt := (orderAttempt_quiet env ev x).1
      rw [hok] at hattempt
      dsimp only at hattempt
      exact hattempt
  | case2 x e tr herr hlt ih =>
      rw [processOrderUpdateEventWithRetry, herr]
      dsimp only
      rw [dif_pos hlt]
      intro r hr
      simp only [createdRecords_append, List.mem_append] at hr
      have hattempt := (orderAttempt_quiet env ev x).1
      rw [herr] at hattempt
      dsimp only at hattempt
      rcases hr with (hr | hr) | hr
      · exact hattempt r hr
      · simp [createdRecords] at hr
      · exact ih r hr
  | case3 x e tr herr hge =>
      rw [processOrderUpdateEventWithRetry, herr]
      dsimp only
      rw [dif_neg hge]
      intro r hr
      simp only [createdRecords_append, List.mem_append] at hr
      have hattempt := (orderAttempt_quiet env ev x).1
      rw [herr] at hattempt
      dsimp only at hattempt
      rcases hr with hr | hr
      · exact hattempt r hr
      · rw [(handleFailedMessage_quiet env.producerFail ctx.topic e ctx.partition
            ctx.offset).1] at hr
        simp at hr

/-- Any order-lifecycle retry chain performs at most
`MAX_RETRIES - retryCount` backoffs, hence at most `3` retries overall. -/
theorem orderDelays_bound (env : OrderEnv) (ev : RawEvent) (ctx : MessageMetadata) :
    ∀ rc, (delays (processOrderUpdateEventWithRetry env ev ctx rc).snd).length ≤
      MAX_RETRIES - rc := by
  intro rc
  induction rc using processOrderUpdateEventWithRetry.induct env ev ctx with
  | case1 x a tr hok =>
      rw [processOrderUpdateEventWithRetry, hok]
      dsimp only
      have hattempt := (orderAttempt_quiet env ev x).2.1
      rw [hok] at hattempt
      dsimp only at hattempt
      simp [hattempt]
  | case2 x e tr herr hlt ih =>
      rw [processOrderUpdateEventWithRetry, herr]
      dsimp only
      rw [dif_pos hlt]
      have hattempt := (orderAttempt_quiet env ev x).2.1
      rw [herr] at hattempt
      dsimp only at hattempt
      simp only [delays_append, hattempt, List.nil_append, List.length_append]
      have hone : (delays [Effect.delayMs (2 ^ x * 1000)]).length = 1 := rfl
      have hM : MAX_RETRIES = 3 := rfl
      omega
  | case3 x e tr herr hge =>
      rw [processOrderUpdateEventWithRetry, herr]
      dsimp only
      rw [dif_neg hge]
      have hattempt := (orderAttempt_quiet env ev x).2.1
      rw [herr] at hattempt
      dsimp only at hattempt
      simp [delays_append, hattempt,
        (handleFailedMessage_quiet env.producerFail ctx.topic e ctx.partition ctx.offset).2.1]

end OrderUpdateEventProcessor

/-! ## Catalog processor lemmas -/

namespace ProductEventProcessor

/-- The canonical record of the catalog processor (event path carries
`some retryCount`, the sweep carries `none`). -/
def mkRecord (userId email : Option String) (retryCount : Option Nat) :
    NotificationRecord :=
  { userId := userId, email := email, type := NotifType.promotion,
    priority := Priority.standard, read := false, emailSent := none,
    retryCount := retryCount }

/-- Every record the catalog attempt persists has `read = false`, and the
attempt never delays or publishes. -/
theorem productAttempt_quiet (createFail mailFail : Option String)
    (userId email : Option String) (retryCount : Option Nat) :
    (∀ r ∈ createdRecords
        (createNotificationForEvent createFail mailFail userId email retryCount).snd,
      r.read = false) ∧
    delays (createNotificationForEvent createFail mailFail userId email retryCount).snd
      = [] ∧
    dlqMetas (createNotificationForEvent createFail mailFail userId email retryCount).snd
      = [] := by
  cases createFail with
  | some m => simp [createNotificationForEvent, createdRecords, delays, dlqMetas]
  | none =>
      cases mailFail <;>
        simp [createNotificationForEvent, createdRecords, delays, dlqMetas]

/-- When persistence rejects on every attempt, the catalog chain returns
`false`, creates no record, and publishes exactly one dead-letter envelope
whose reason is the unwrapped message of the last (sixth, index `5`)
error. -/
theorem productAllFail (env : ProductEnv) (ev : RawEvent) (ctx : MessageMetadata)
    (f : Nat → String)
    (hc : ∀ n, env.createFail n = some (f n))
    (hne : ∀ n, f n ≠ "")
    (hp : env.producerFail = none) :
    ∀ rc, (processProductEventWithRetry env ev ctx rc).fst = false ∧
      createdRecords (processProductEventWithRetry env ev ctx rc).snd = [] ∧
      dlqMetas (processProductEventWithRetry env ev ctx rc).snd =
        [{ originalTopic := ctx.topic, partition := ctx.partition, offset := ctx.offset,
           reason := f (max 5 rc) }] := by
  intro rc
  induction rc using processProductEventWithRetry.induct env ev ctx with
  | case1 x a tr hok =>
      exfalso
      rw [hc x] at hok
      simp [createNotificationForEvent] at hok
  | case2 x e tr herr hlt ih =>
      obtain ⟨hfst, hcr, hdlq⟩ := ih
      rw [processProductEventWithRetry]
      rw [hc x]
      simp only [createNotificationForEvent]
      rw [dif_pos hlt]
      have h5 : max 5 (x + 1) = max 5 x := by
        have hM : MAX_RETRIES = 5 := rfl
        omega
      rw [h5] at hdlq
      refine ⟨hfst, ?_, ?_⟩
      · simp only [createdRecords_append, hcr]
        rfl
      · simp only [dlqMetas_append, hdlq]
        rfl
  | case3 x e tr herr hge =>
      rw [processProductEventWithRetry]
      rw [hc x]
      simp only [createNotificationForEvent]
      rw [dif_neg hge]
      have hx : max 5 x = x := by
        have hM : MAX_RETRIES = 5 := rfl
        omega
      rw [hx]
      simp only [handleFailedMessage, queueFailedMessage, hp, if_neg (hne x)]
      simp [createdRecords, dlqMetas]

/-- When persistence rejects on the first `k ≤ 5` attempts and then
succeeds, the catalog chain returns `true`, creates exactly the one record
carrying `metadata.retryCount = k`, backs off `2 ^ i * 500` before attempt
`i + 1`, and dead-letters nothing. -/
theorem productChain (env : ProductEnv) (ev : RawEvent) (ctx : MessageMetadata)
    (f : Nat → String) (k : Nat) (hk : k ≤ 5)
    (hf : ∀ i, i < k → env.createFail i = some (f i))
    (hs : env.createFail k = none) :
    ∀ rc, rc ≤ k →
      (processProductEventWithRetry env ev ctx rc).fst = true ∧
      createdRecords (processProductEventWithRetry env ev ctx rc).snd =
        [mkRecord ev.userId ev.email (some k)] ∧
      delays (processProductEventWithRetry env ev ctx rc).snd =
        (List.range (k - rc)).map (fun i => 2 ^ (rc + i) * 500) ∧
      dlqMetas (processProductEventWithRetry env ev ctx rc).snd = [] := by
  intro rc
  induction rc using processProductEventWithRetry.induct env ev ctx with
  | case1 x a tr hok =>
      intro hxk
      rcases Nat.lt_or_ge x k with hxlt | hxge
      · exfalso
        rw [hf x hxlt] at hok
        simp [createNotificationForEvent] at hok
      · have hxe : x = k := le_antisymm hxk hxge
        subst hxe
        rw [processProductEventWithRetry]
        rw [hs]
        simp only [createNotificationForEvent]
        cases hm : env.mailFail x <;>
          simp [hm, createdRecords, delays, dlqMetas, mkRecord]
  | case2 x e tr herr hlt ih =>
      intro hxk
      have hxlt : x < k := by
        rcases Nat.lt_or_ge x k with h | h
        · exact h
        · exfalso
          have hxe : x = k := le_antisymm hxk h
          subst hxe
          rw [hs] at herr
          cases hm : env.mailFail x <;> rw [hm] at herr <;>
            simp [createNotificationForEvent] at herr
      obtain ⟨hfst, hcr, hdel, hdlq⟩ := ih (by omega)
      rw [processProductEventWithRetry]
      rw [hf x hxlt]
      simp only [createNotificationForEvent]
      rw [dif_pos hlt]
      refine ⟨hfst, ?_, ?_, ?_⟩
      · simp only [createdRecords_append, hcr]
        rfl
      · simp only [delays_append, hdel]
        rw [show delays ([] : List Effect) = [] from rfl]
        rw [show delays [Effect.delayMs (2 ^ x * BASE_DELAY)] = [2 ^ x * 500] from rfl]
        rw [List.nil_append, List.cons_append, List.nil_append]
        rw [delay_chain 500 x (k - (x + 1))]
        rw [show k - (x + 1) + 1 = k - x from by omega]
      · simp only [dlqMetas_append, hdlq]
        rfl
  | case3 x e tr herr hge =>
      intro hxk
      exfalso
      have hM : MAX_RETRIES = 5 := rfl
      have hxe : x = k := by omega
      subst hxe
      rw [hs] at herr
      cases hm : env.mailFail x <;> rw [hm] at herr <;>
        simp [createNotificationForEvent] at herr

/-- Every record any catalog event-path retry chain persists has
`read = false`. -/
theorem productRead_false (env : ProductEnv) (ev : RawEvent) (ctx : MessageMetadata) :
    ∀ rc, ∀ r ∈ createdRecords (processProductEventWithRetry env ev ctx rc).snd,
      r.read = false := by
  intro rc
  induction rc using processProductEventWithRetry.induct env ev ctx with
  | case1 x a tr hok =>
      rw [processProductEventWithRetry, hok]
      dsimp only
      have hattempt := (productAttempt_quiet (env.createFail x) (env.mailFail x)
        ev.userId ev.email (some x)).1
      rw [hok] at hattempt
      dsimp only at hattempt
      exact hattempt
  | case2 x e tr herr hlt ih =>
      rw [processProductEventWithRetry, herr]
      dsimp only
      rw [dif_pos hlt]
      intro r hr
      simp only [createdRecords_append, List.mem_append] at hr
      have hattempt := (productAttempt_quiet (env.createFail x) (env.mailFail x)
        ev.userId ev.email (some x)).1
      rw [herr] at hattempt
      dsimp only at hattempt
      rcases hr with (hr | hr) | hr
      · exact hattempt r hr
      · simp [createdRecords] at hr
      · exact ih r hr
  | case3 x e tr herr hge =>
      rw [processProductEventWithRetry, herr]
      dsimp only
      rw [dif_neg hge]
      intro r hr
      simp only [createdRecords_append, List.mem_append] at hr
      have hattempt := (productAttempt_quiet (env.createFail x) (env.mailFail x)
        ev.userId ev.email (some x)).1
      rw [herr] at hattempt
      dsimp only at hattempt
      rcases hr with hr | hr
      · exact hattempt r hr
      · rw [(handleFailedMessage_quiet env.producerFail ctx.topic e ctx.partition
            ctx.offset).1] at hr
        simp at hr

/-- Any catalog event-path retry chain performs at most
`MAX_RETRIES - retryCount` backoffs, hence at most `5` retries overall. -/
theorem productDelays_bound (env : ProductEnv) (ev : RawEvent) (ctx : MessageMetadata) :
    ∀ rc, (delays (processProductEventWithRetry env ev ctx rc).snd).length ≤
      MAX_RETRIES - rc := by
  intro rc
  induction rc using processProductEventWithRetry.induct env ev ctx with
  | case1 x a tr hok =>
      rw [processProductEventWithRetry, hok]
      dsimp only
      have hattempt := (productAttempt_quiet (env.createFail x) (env.mailFail x)
        ev.userId ev.email (some x)).2.1
      rw [hok] at hattempt
      dsimp only at hattempt
      simp [hattempt]
  | case2 x e tr herr hlt ih =>
      rw [processProductEventWithRetry, herr]
      dsimp only
      rw [dif_pos hlt]
      have hattempt := (productAttempt_quiet (env.createFail x) (env.mailFail x)
        ev.userId ev.email (some x)).2.1
      rw [herr] at hattempt
      dsimp only at hattempt
      simp only [delays_append, hattempt, List.nil_append, List.length_append]
      have hone : (delays [Effect.delayMs (2 ^ x * BASE_DELAY)]).length = 1 := rfl
      have hM : MAX_RETRIES = 5 := rfl
      omega
  | case3 x e tr herr hge =>
      rw [processProductEventWithRetry, herr]
      dsimp only
      rw [dif_neg hge]
      have hattempt := (productAttempt_quiet (env.createFail x) (env.mailFail x)
        ev.userId ev.email (some x)).2.1
      rw [herr] at hattempt
      dsimp only at hattempt
      simp [delays_append, hattempt,
        (handleFailedMessage_quiet env.producerFail ctx.topic e ctx.partition ctx.offset).2.1]

/-- Every record `sweepCreations` persists has `read = false`. -/
theorem sweepCreations_read_false (env : ProductEnv) :
    ∀ (L : List SweepUser) (i : Nat),
      ∀ r ∈ createdRecords (sweepCreations env L i), r.read = false := by
  intro L
  induction L with
  | nil =>
      intro i r hr
      simp [sweepCreations, createdRecords] at hr
  | cons u rest ih =>
      intro i r hr
      rw [sweepCreations, createdRecords_append] at hr
      rcases List.mem_append.mp hr with h | h
      · exact (productAttempt_quiet (env.sweepCreateFail i) (env.sweepMailFail i)
          (some u._id) (some u.email) none).1 r h
      · exact ih (i + 1) r h

/-- Every record the catalog sweep (`sendRandomUserNotifications`) persists
has `read = false`. -/
theorem sweep_read_false (env : ProductEnv) :
    ∀ r ∈ createdRecords (sendRandomUserNotifications env), r.read = false := by
  rw [sendRandomUserNotifications, getRandomUsers]
  cases env.fetchUsers with
  | error m => simp [createdRecords]
  | ok users =>
      dsimp only
      intro r hr
      simp only [createdRecords_append, List.mem_append] at hr
      rcases hr with hr | hr
      · simp [createdRecords] at hr
      · exact sweepCreations_read_false env _ 0 r hr

end ProductEventProcessor

/-! ## Recommendation processor lemmas -/

namespace RecommendationEventProcessor

/-- The canonical record of the recommendation processor: priority
`STANDARD` and a metadata object without any `retryCount` key. -/
def mkRecord (user : RecUser) : NotificationRecord :=
  { userId := some user._id, email := some user.email,
    type := NotifType.recommendation, priority := Priority.standard,
    read := false, emailSent := some false, retryCount := none }

/-- An invalid event short-circuits inside the first loop iteration:
`false` with an empty trace — no lookup, no create, no backoff, no
dead-letter. -/
theorem invalid_event (env : RecEnv) (ev : RawEvent) (ctx : MessageMetadata)
    (hv : validateEvent ev = false) :
    processRecommendationEvent env ev ctx = (false, []) := by
  rw [processRecommendationEvent, processLoop]
  rw [dif_pos (by rw [show maxRetries = 3 from rfl]; omega)]
  rw [attemptAt, hv]
  rfl

/-- `sendEmailNotification` never persists, delays, or publishes. -/
theorem sendEmailNotification_quiet (lookupRes : Option RecUser) (mailFail : Option String) :
    createdRecords (sendEmailNotification lookupRes mailFail) = [] ∧
    delays (sendEmailNotification lookupRes mailFail) = [] ∧
    dlqMetas (sendEmailNotification lookupRes mailFail) = [] := by
  simp only [sendEmailNotification]
  cases lookupRes with
  | none => simp [createdRecords, delays, dlqMetas]
  | some user =>
      by_cases h1 : validateEmailFormat user.email <;>
        by_cases h2 : user.optedIn <;>
          cases mailFail <;>
            simp [h1, h2, createdRecords, delays, dlqMetas]

/-- A failed recommendation attempt performed exactly the lookup. -/
theorem attempt_failed_trace (env : RecEnv) (ev : RawEvent) (n : Nat) (msg : String)
    (tr : List Effect) (h : attemptAt env ev n = (AttemptResult.failed msg, tr)) :
    tr = [Effect.lookupUser (ev.userId.getD "")] := by
  rw [attemptAt] at h
  cases hv : validateEvent ev with
  | false =>
      rw [hv] at h
      simp at h
  | true =>
      rw [hv] at h
      simp only [Bool.not_true, Bool.false_eq_true, if_false] at h
      cases hu : env.getUserAt n with
      | none =>
          rw [hu] at h
          simp at h
          exact h.2.symm
      | some user =>
          rw [hu] at h
          dsimp only at h
          cases ho : user.optedIn with
          | false =>
              rw [ho] at h
              simp at h
          | true =>
              rw [ho] at h
              simp only [Bool.not_true, Bool.false_eq_true, if_false,
                createNotification] at h
              cases hc : env.createFail n with
              | some m =>
                  rw [hc] at h
                  simp at h
                  exact h.2.symm
              | none =>
                  rw [hc] at h
                  simp at h

/-- Every record the recommendation attempt persists has `read = false`,
and the attempt never delays or publishes. -/
theorem recAttempt_quiet (env : RecEnv) (ev : RawEvent) (n : Nat) :
    (∀ r ∈ createdRecords (attemptAt env ev n).snd, r.read = false) ∧
    delays (attemptAt env ev n).snd = [] ∧
    dlqMetas (attemptAt env ev n).snd = [] := by
  rw [attemptAt]
  cases hv : validateEvent ev with
  | false => simp [createdRecords, delays, dlqMetas]
  | true =>
      simp only [Bool.not_true, Bool.false_eq_true, if_false]
      cases env.getUserAt n with
      | none => simp [createdRecords, delays, dlqMetas]
      | some user =>
          dsimp only
          cases ho : user.optedIn with
          | false => simp [ho, createdRecords, delays, dlqMetas]
          | true =>
              simp only [ho, Bool.not_true, Bool.false_eq_true, if_false,
                createNotification]
              cases env.createFail n with
              | some m => simp [createdRecords, delays, dlqMetas]
              | none =>
                  obtain ⟨h1, h2, h3⟩ :=
                    sendEmailNotification_quiet (env.innerLookupAt n) (env.innerMailFail n)
                  simp only [createdRecords, delays, dlqMetas] at h1 h2 h3 ⊢
                  simp [List.filterMap_cons, List.filterMap_append, h1, h2, h3]

/-- The attempt when validation passes but the lookup yields no user
(failed request, or a 200 response without an email): a retryable throw. -/
theorem attempt_fail_lookup (env : RecEnv) (ev : RawEvent) (n : Nat)
    (hv : validateEvent ev = true) (hu : env.getUserAt n = none) :
    attemptAt env ev n =
      (AttemptResult.failed ("User data not found for userId: " ++ ev.userId.getD ""),
        [Effect.lookupUser (ev.userId.getD "")]) := by
  rw [attemptAt, hv, hu]
  rfl

/-- The attempt when validation passes, the user is found and opted in, and
the create rejects. -/
theorem attempt_fail_create (env : RecEnv) (ev : RawEvent) (n : Nat) (u : RecUser)
    (m : String) (hv : validateEvent ev = true) (hu : env.getUserAt n = some u)
    (ho : u.optedIn = true) (hc : env.createFail n = some m) :
    attemptAt env ev n =
      (AttemptResult.failed m, [Effect.lookupUser (ev.userId.getD "")]) := by
  rw [attemptAt, hv, hu]
  dsimp only
  rw [ho]
  simp [createNotification, hc]

/-- The attempt when validation passes and the user opted out: a
soft-success with no record. -/
theorem attempt_optout (env : RecEnv) (ev : RawEvent) (n : Nat) (u : RecUser)
    (hv : validateEvent ev = true) (hu : env.getUserAt n = some u)
    (ho : u.optedIn = false) :
    attemptAt env ev n =
      (AttemptResult.success, [Effect.lookupUser (ev.userId.getD "")]) := by
  rw [attemptAt, hv, hu]
  dsimp only
  rw [ho]
  rfl

/-- The attempt when validation passes, the user is found, opted in, and
the create succeeds. -/
theorem attempt_ok_create (env : RecEnv) (ev : RawEvent) (n : Nat) (u : RecUser)
    (hv : validateEvent ev = true) (hu : env.getUserAt n = some u)
    (ho : u.optedIn = true) (hc : env.createFail n = none) :
    attemptAt env ev n =
      (AttemptResult.success,
        Effect.lookupUser (ev.userId.getD "") :: [Effect.createRecord (mkRecord u)] ++
          sendEmailNotification (env.innerLookupAt n) (env.innerMailFail n)) := by
  rw [attemptAt, hv, hu]
  dsimp only
  rw [ho]
  simp [createNotification, hc, mkRecord]

/-- When every iteration of the recommendation loop throws, the loop
returns `false`, creates no record, backs off `2 ^ (i + 1) * 1000` after
the failure of attempt `i` (only two backoffs happen overall), and
publishes exactly one dead-letter envelope with the message of the last
(third, index `2`) error. -/
theorem loop_allFail (env : RecEnv) (ev : RawEvent) (ctx : MessageMetadata)
    (m : Nat → String)
    (hA : ∀ n, n < maxRetries → attemptAt env ev n =
      (AttemptResult.failed (m n), [Effect.lookupUser (ev.userId.getD "")]))
    (hne : m (maxRetries - 1) ≠ "") (hp : env.producerFail = none) :
    ∀ rc, rc < maxRetries →
      (processLoop env ev ctx rc).fst = false ∧
      createdRecords (processLoop env ev ctx rc).snd = [] ∧
      delays (processLoop env ev ctx rc).snd =
        (List.range (maxRetries - 1 - rc)).map (fun i => 2 ^ (rc + 1 + i) * 1000) ∧
      dlqMetas (processLoop env ev ctx rc).snd =
        [{ originalTopic := ctx.topic, partition := ctx.partition, offset := ctx.offset,
           reason := m (maxRetries - 1) }] := by
  intro rc
  induction rc using processLoop.induct env ev ctx with
  | case1 x hlt tr hinv =>
      intro _
      exfalso
      rw [hA x hlt] at hinv
      simp at hinv
  | case2 x hlt tr hsucc =>
      intro _
      exfalso
      rw [hA x hlt] at hsucc
      simp at hsucc
  | case3 x hlt msg tr hfail rc hmax =>
      intro _
      rw [processLoop, dif_pos hlt, hA x hlt]
      dsimp only
      have hx : x = maxRetries - 1 := by
        have hM : maxRetries = 3 := rfl
        omega
      rw [if_pos hmax]
      subst hx
      simp only [handleFailedMessage, queueFailedMessage, hp, if_neg hne]
      refine ⟨by simp, by simp [createdRecords], ?_, by simp [dlqMetas]⟩
      have hz : maxRetries - 1 - (maxRetries - 1) = 0 := by omega
      rw [hz]
      simp [delays]
  | case4 x hlt msg tr hfail rc hmax ih =>
      intro _
      have hM : maxRetries = 3 := rfl
      obtain ⟨hfst, hcr, hdel, hdlq⟩ := ih (by omega)
      rw [processLoop, dif_pos hlt, hA x hlt]
      dsimp only
      rw [if_neg hmax]
      refine ⟨hfst, ?_, ?_, ?_⟩
      · simp only [createdRecords_append, hcr]
        rfl
      · simp only [delays_append, hdel]
        rw [show delays [Effect.lookupUser (ev.userId.getD "")] = [] from rfl]
        rw [show delays [Effect.delayMs (2 ^ (x + 1) * 1000)] = [2 ^ (x + 1) * 1000]
          from rfl]
        rw [List.nil_append, List.cons_append, List.nil_append]
        rw [delay_chain 1000 (x + 1) (maxRetries - 1 - (x + 1))]
        rw [show maxRetries - 1 - (x + 1) + 1 = maxRetries - 1 - x from by omega]
      · simp only [dlqMetas_append, hdlq]
        rfl
  | case5 x hge =>
      intro hlt
      exact absurd hlt hge

/-- When the first `k` iterations of the recommendation loop throw and
iteration `k < 3` returns, the loop returns `true` with the trace of the
successful attempt, having backed off `2 ^ (i + 1) * 1000` after the
failure of attempt `i` — not `2 ^ i * base` — and dead-letters nothing. -/
theorem loop_chain (env : RecEnv) (ev : RawEvent) (ctx : MessageMetadata)
    (m : Nat → String) (s : List Effect) (k : Nat) (hk : k < maxRetries)
    (hA : ∀ i, i < k → attemptAt env ev i =
      (AttemptResult.failed (m i), [Effect.lookupUser (ev.userId.getD "")]))
    (hS : attemptAt env ev k = (AttemptResult.success, s)) :
    ∀ rc, rc ≤ k →
      (processLoop env ev ctx rc).fst = true ∧
      createdRecords (processLoop env ev ctx rc).snd = createdRecords s ∧
      delays (processLoop env ev ctx rc).snd =
        (List.range (k - rc)).map (fun i => 2 ^ (rc + 1 + i) * 1000) ∧
      dlqMetas (processLoop env ev ctx rc).snd = [] := by
  intro rc
  induction rc using processLoop.induct env ev ctx with
  | case1 x hlt tr hinv =>
      intro hxk
      exfalso
      rcases Nat.lt_or_ge x k with hxlt | hxge
      · rw [hA x hxlt] at hinv
        simp at hinv
      · have hxe : x = k := le_antisymm hxk hxge
        subst hxe
        rw [hS] at hinv
        simp at hinv
  | case2 x hlt tr hsucc =>
      intro hxk
      have hxe : x = k := by
        rcases Nat.lt_or_ge x k with hxlt | hxge
        · exfalso
          rw [hA x hxlt] at hsucc
          simp at hsucc
        · exact le_antisymm hxk hxge
      subst hxe
      rw [hS] at hsucc
      have hts : tr = s := by
        have := congrArg Prod.snd hsucc
        simpa using this.symm
      subst hts
      rw [processLoop, dif_pos hlt, hS]
      dsimp only
      have hq := recAttempt_quiet env ev x
      rw [hS] at hq
      dsimp only at hq
      refine ⟨rfl, rfl, ?_, hq.2.2⟩
      rw [hq.2.1]
      simp
  | case3 x hlt msg tr hfail rc hmax =>
      intro hxk
      exfalso
      have hM : maxRetries = 3 := rfl
      have hxe : x = k := by omega
      subst hxe
      rw [hS] at hfail
      simp at hfail
  | case4 x hlt msg tr hfail rc hmax ih =>
      intro hxk
      have hxlt : x < k := by
        rcases Nat.lt_or_ge x k with h | h
        · exact h
        · exfalso
          have hxe : x = k := le_antisymm hxk h
          subst hxe
          rw [hS] at hfail
          simp at hfail
      obtain ⟨hfst, hcr, hdel, hdlq⟩ := ih (by omega)
      rw [processLoop, dif_pos hlt, hA x hxlt]
      dsimp only
      rw [if_neg hmax]
      refine ⟨hfst, ?_, ?_, ?_⟩
      · simp only [createdRecords_append, hcr]
        rfl
      · simp only [delays_append, hdel]
        rw [show delays [Effect.lookupUser (ev.userId.getD "")] = [] from rfl]
        rw [show delays [Effect.delayMs (2 ^ (x + 1) * 1000)] = [2 ^ (x + 1) * 1000]
          from rfl]
        rw [List.nil_append, List.cons_append, List.nil_append]
        rw [delay_chain 1000 (x + 1) (k - (x + 1))]
        rw [show k - (x + 1) + 1 = k - x from by omega]
      · simp only [dlqMetas_append, hdlq]
        rfl
  | case5 x hge =>
      intro hxk
      exfalso
      have hM : maxRetries = 3 := rfl
      omega

/-- Every record any recommendation loop persists has `read = false`. -/
theorem recRead_false (env : RecEnv) (ev : RawEvent) (ctx : MessageMetadata) :
    ∀ rc, ∀ r ∈ createdRecords (processLoop env ev ctx rc).snd, r.read = false := by
  intro rc
  induction rc using processLoop.induct env ev ctx with
  | case1 x hlt tr hinv =>
      rw [processLoop, dif_pos hlt, hinv]
      have hq := (recAttempt_quiet env ev x).1
      rw [hinv] at hq
      dsimp only at hq
      exact hq
  | case2 x hlt tr hsucc =>
      rw [processLoop, dif_pos hlt, hsucc]
      have hq := (recAttempt_quiet env ev x).1
      rw [hsucc] at hq
      dsimp only at hq
      exact hq
  | case3 x hlt msg tr hfail rc hmax =>
      rw [processLoop, dif_pos hlt, hfail]
      dsimp only
      rw [if_pos hmax]
      intro r hr
      simp only [createdRecords_append, List.mem_append] at hr
      have hq := (recAttempt_quiet env ev x).1
      rw [hfail] at hq
      dsimp only at hq
      rcases hr with hr | hr
      · exact hq r hr
      · rw [(handleFailedMessage_quiet env.producerFail ctx.topic msg ctx.partition
            ctx.offset).1] at hr
        simp at hr
  | case4 x hlt msg tr hfail rc hmax ih =>
      rw [processLoop, dif_pos hlt, hfail]
      dsimp only
      rw [if_neg hmax]
      intro r hr
      simp only [createdRecords_append, List.mem_append] at hr
      have hq := (recAttempt_quiet env ev x).1
      rw [hfail] at hq
      dsimp only at hq
      rcases hr with (hr | hr) | hr
      · exact hq r hr
      · simp [createdRecords] at hr
      · exact ih r hr
  | case5 x hge =>
      rw [processLoop, dif_neg hge]
      simp [createdRecords]

/-- Any recommendation loop performs at most `maxRetries - 1` backoffs —
strictly fewer than the declared `maxRetries = 3`. -/
theorem recDelays_bound (env : RecEnv) (ev : RawEvent) (ctx : MessageMetadata) :
    ∀ rc, (delays (processLoop env ev ctx rc).snd).length ≤ maxRetries - 1 - rc := by
  intro rc
  induction rc using processLoop.induct env ev ctx with
  | case1 x hlt tr hinv =>
      rw [processLoop, dif_pos hlt, hinv]
      have hq := (recAttempt_quiet env ev x).2.1
      rw [hinv] at hq
      dsimp only at hq
      simp [hq]
  | case2 x hlt tr hsucc =>
      rw [processLoop, dif_pos hlt, hsucc]
      have hq := (recAttempt_quiet env ev x).2.1
      rw [hsucc] at hq
      dsimp only at hq
      simp [hq]
  | case3 x hlt msg tr hfail rc hmax =>
      rw [processLoop, dif_pos hlt, hfail]
      dsimp only
      rw [if_pos hmax]
      have hq := (recAttempt_quiet env ev x).2.1
      rw [hfail] at hq
      dsimp only at hq
      simp [delays_append, hq,
        (handleFailedMessage_quiet env.producerFail ctx.topic msg ctx.partition
          ctx.offset).2.1]
  | case4 x hlt msg tr hfail rc hmax ih =>
      rw [processLoop, dif_pos hlt, hfail]
      dsimp only
      rw [if_neg hmax]
      have hq := (recAttempt_quiet env ev x).2.1
      rw [hfail] at hq
      dsimp only at hq
      simp only [delays_append, hq, List.nil_append, List.length_append]
      have hone : (delays [Effect.delayMs (2 ^ (x + 1) * 1000)]).length = 1 := rfl
      have hrc : (delays (processLoop env ev ctx rc).snd).length =
          (delays (processLoop env ev ctx (x + 1)).snd).length := rfl
      have hM : maxRetries = 3 := rfl
      omega
  | case5 x hge =>
      rw [processLoop, dif_neg hge]
      simp [delays]

end RecommendationEventProcessor

/-! ## Concrete inputs used by witnesses and counterexamples -/

/-- A lookup that always resolves the recipient to the same email. -/
def wLookupOk : Nat → LookupResult := fun _ => LookupResult.found (some "u1@mail.com")

/-- A lookup that always succeeds but never carries an email. -/
def wLookupNoEmail : Nat → LookupResult := fun _ => LookupResult.found none

/-- A store that always accepts. -/
def wCreateOk : Nat → Option String := fun _ => none

/-- A store that always rejects. -/
def wCreateFail : Nat → Option String := fun _ => some "store down"

/-- A store that rejects the first attempt and then accepts. -/
def wCreateFailOnce : Nat → Option String := fun n => if n = 0 then some "store down" else none

/-- A mail transport that always succeeds. -/
def wMailOk : Nat → Option String := fun _ => none

/-- A mail transport that always rejects. -/
def wMailFail : Nat → Option String := fun _ => some "smtp down"

/-- A concrete opted-in recommendation user. -/
def wRecUser : RecUser :=
  { _id := "u1", email := "u1@mail.com", name := "U", optedIn := true }

def wUserEnvOk : UserEnv :=
  { lookupAt := wLookupOk, createFail := wCreateOk, mailFail := wMailOk,
    producerFail := none }

def wUserEnvAllFail : UserEnv :=
  { lookupAt := wLookupOk, createFail := wCreateFail, mailFail := wMailOk,
    producerFail := none }

def wUserEnvNoEmail : UserEnv :=
  { lookupAt := wLookupNoEmail, createFail := wCreateOk, mailFail := wMailOk,
    producerFail := none }

def wUserEnvMailFail : UserEnv :=
  { lookupAt := wLookupOk, createFail := wCreateOk, mailFail := wMailFail,
    producerFail := none }

def wUserEnvFailOnce : UserEnv :=
  { lookupAt := wLookupOk, createFail := wCreateFailOnce, mailFail := wMailOk,
    producerFail := none }

def wOrderEnvOk : OrderEnv :=
  { lookupAt := wLookupOk, createFail := wCreateOk, mailFail := wMailOk,
    producerFail := none }

def wOrderEnvAllFail : OrderEnv :=
  { lookupAt := wLookupOk, createFail := wCreateFail, mailFail := wMailOk,
    producerFail := none }

def wOrderEnvNoEmail : OrderEnv :=
  { lookupAt := wLookupNoEmail, createFail := wCreateOk, mailFail := wMailOk,
    producerFail := none }

def wOrderEnvMailFail : OrderEnv :=
  { lookupAt := wLookupOk, createFail := wCreateOk, mailFail := wMailFail,
    producerFail := none }

def wProductEnvOk : ProductEnv :=
  { createFail := wCreateOk, mailFail := wMailOk, producerFail := none,
    fetchUsers := Except.ok [], shuffle := id, sweepCreateFail := wCreateOk,
    sweepMailFail := wMailOk }

def wProductEnvAllFail : ProductEnv :=
  { createFail := wCreateFail, mailFail := wMailOk, producerFail := none,
    fetchUsers := Except.ok [], shuffle := id, sweepCreateFail := wCreateOk,
    sweepMailFail := wMailOk }

def wRecEnvOk : RecEnv :=
  { getUserAt := fun _ => some wRecUser, createFail := wCreateOk,
    innerLookupAt := fun _ => some wRecUser, innerMailFail := wMailOk,
    producerFail := none }

def wRecEnvAllFail : RecEnv :=
  { getUserAt := fun _ => some wRecUser, createFail := wCreateFail,
    innerLookupAt := fun _ => some wRecUser, innerMailFail := wMailOk,
    producerFail := none }

def wRecEnvFailOnce : RecEnv :=
  { getUserAt := fun _ => some wRecUser, createFail := wCreateFailOnce,
    innerLookupAt := fun _ => some wRecUser, innerMailFail := wMailOk,
    producerFail := none }

def wRecEnvNoUser : RecEnv :=
  { getUserAt := fun _ => none, createFail := wCreateOk,
    innerLookupAt := fun _ => none, innerMailFail := wMailOk,
    producerFail := none }

/-- A concrete valid recommendation item. -/
def wRecItem : RecommendationItem :=
  { productId := some "p1", name := some "P", price := some (JsonVal.num 10),
    category := some "c" }

/-- A concrete valid recommendation event. -/
def wRecEvent : RawEvent :=
  { userId := some "u1", recommendations := some [wRecItem], timestamp := some "t" }

def wUserEvent : RawEvent := { userId := some "u1" }

def wOrderEvent : RawEvent := { userId := some "u1", orderId := some "o1" }

def wProductEvent : RawEvent := { userId := some "u1", email := some "u1@mail.com" }

def wCtx : MessageMetadata := { topic := "user-events", partition := 2, offset := "41" }

/-! ## Claims -/

/-- C2: for every event whose recipient resolves to an email and whose
persistence succeeds on the first attempt, `processWithRetry` returns
`true` and exactly one notification record is created — with priority
`critical` for the account-lifecycle and order-lifecycle processors and
priority `standard` for the catalog and recommendation processors. -/
theorem c2_first_attempt_success_one_record :
    (∀ (env : UserEnv) (ev : RawEvent) (ctx : MessageMetadata) (em : String),
      env.lookupAt 0 = LookupResult.found (some em) → env.createFail 0 = none →
      (UserUpdateEventProcessor.processUserUpdateEventWithRetry env ev ctx 0).fst = true ∧
      createdRecords
          (UserUpdateEventProcessor.processUserUpdateEventWithRetry env ev ctx 0).snd =
        [UserUpdateEventProcessor.mkRecord ev.userId em 0] ∧
      (UserUpdateEventProcessor.mkRecord ev.userId em 0).priority = Priority.critical) ∧
    (∀ (env : OrderEnv) (ev : RawEvent) (ctx : MessageMetadata) (em : String),
      strTruthy ev.userId = true →
      env.lookupAt 0 = LookupResult.found (some em) → env.createFail 0 = none →
      (OrderUpdateEventProcessor.processOrderUpdateEventWithRetry env ev ctx 0).fst = true ∧
      createdRecords
          (OrderUpdateEventProcessor.processOrderUpdateEventWithRetry env ev ctx 0).snd =
        [OrderUpdateEventProcessor.mkRecord (ev.userId.getD "") em 0] ∧
      (OrderUpdateEventProcessor.mkRecord (ev.userId.getD "") em 0).priority =
        Priority.critical) ∧
    (∀ (env : ProductEnv) (ev : RawEvent) (ctx : MessageMetadata),
      env.createFail 0 = none →
      (ProductEventProcessor.processProductEventWithRetry env ev ctx 0).fst = true ∧
      createdRecords
          (ProductEventProcessor.processProductEventWithRetry env ev ctx 0).snd =
        [ProductEventProcessor.mkRecord ev.userId ev.email (some 0)] ∧
      (ProductEventProcessor.mkRecord ev.userId ev.email (some 0)).priority =
        Priority.standard) ∧
    (∀ (env : RecEnv) (ev : RawEvent) (ctx : MessageMetadata) (u : RecUser),
      RecommendationEventProcessor.validateEvent ev = true →
      env.getUserAt 0 = some u → u.optedIn = true → env.createFail 0 = none →
      (RecommendationEventProcessor.processRecommendationEvent env ev ctx).fst = true ∧
      createdRecords
          (RecommendationEventProcessor.processRecommendationEvent env ev ctx).snd =
        [RecommendationEventProcessor.mkRecord u] ∧
      (RecommendationEventProcessor.mkRecord u).priority = Priority.standard) := by
  refine ⟨?_, ?_, ?_, ?_⟩
  · intro env ev ctx em hl hc
    rw [UserUpdateEventProcessor.processUserUpdateEventWithRetry]
    rw [UserUpdateEventProcessor.createNotificationForEvent, hl, hc]
    simp only [UserUpdateEventProcessor.getUserEmail]
    cases hm : env.mailFail 0 <;>
      simp [UserUpdateEventProcessor.handleCriticalNotification, hm, createdRecords,
        UserUpdateEventProcessor.mkRecord]
  · intro env ev ctx em hv hl hc
    rw [OrderUpdateEventProcessor.processOrderUpdateEventWithRetry]
    rw [OrderUpdateEventProcessor.orderAttempt_ok env ev 0 em hv hl hc]
    dsimp only
    cases hm : env.mailFail 0 <;>
      simp [OrderUpdateEventProcessor.handleEmailNotification, hm, createdRecords,
        OrderUpdateEventProcessor.mkRecord]
  · intro env ev ctx hc
    rw [ProductEventProcessor.processProductEventWithRetry]
    rw [hc]
    simp only [ProductEventProcessor.createNotificationForEvent]
    cases hm : env.mailFail 0 <;>
      simp [hm, createdRecords, ProductEventProcessor.mkRecord]
  · intro env ev ctx u hv hu ho hc
    rw [RecommendationEventProcessor.processRecommendationEvent,
      RecommendationEventProcessor.processLoop]
    rw [dif_pos (by rw [show RecommendationEventProcessor.maxRetries = 3 from rfl]; omega)]
    rw [RecommendationEventProcessor.attempt_ok_create env ev 0 u hv hu ho hc]
    dsimp only
    obtain ⟨h1, h2, h3⟩ := RecommendationEventProcessor.sendEmailNotification_quiet
      (env.innerLookupAt 0) (env.innerMailFail 0)
    simp only [createdRecords, delays, dlqMetas] at h1 h2 h3 ⊢
    simp [List.filterMap_cons, List.filterMap_append, h1,
      RecommendationEventProcessor.mkRecord]

/-- C2 witness: a concrete instance of each of the four parts. -/
theorem c2_first_attempt_success_one_record_witness :
    (UserUpdateEventProcessor.processUserUpdateEventWithRetry wUserEnvOk wUserEvent
      wCtx 0).fst = true ∧
    (OrderUpdateEventProcessor.processOrderUpdateEventWithRetry wOrderEnvOk wOrderEvent
      wCtx 0).fst = true ∧
    (ProductEventProcessor.processProductEventWithRetry wProductEnvOk wProductEvent
      wCtx 0).fst = true ∧
    (RecommendationEventProcessor.processRecommendationEvent wRecEnvOk wRecEvent
      wCtx).fst = true :=
  ⟨(c2_first_attempt_success_one_record.1 wUserEnvOk wUserEvent wCtx "u1@mail.com"
      rfl rfl).1,
   (c2_first_attempt_success_one_record.2.1 wOrderEnvOk wOrderEvent wCtx "u1@mail.com"
      (by decide) rfl rfl).1,
   (c2_first_attempt_success_one_record.2.2.1 wProductEnvOk wProductEvent wCtx rfl).1,
   (c2_first_attempt_success_one_record.2.2.2 wRecEnvOk wRecEvent wCtx wRecUser
      (by decide) rfl rfl rfl).1⟩

/-- C4: each processor performs at most its declared number of retries
(backoffs) before dead-lettering, whatever the environment does: `5` for
account-lifecycle, `3` for order-lifecycle, `5` for catalog, `3` for
recommendation (whose `while` loop in fact backs off at most twice).  The
recommendation bound holds of `processRecommendationEvent`, the iterative
loop of the source (a `while`, not self-recursion). -/
theorem c4_retry_budgets
    (uenv : UserEnv) (oenv : OrderEnv) (penv : ProductEnv) (renv : RecEnv)
    (ev : RawEvent) (ctx : MessageMetadata) :
    (delays (UserUpdateEventProcessor.processUserUpdateEventWithRetry uenv ev ctx
        0).snd).length ≤ 5 ∧
    (delays (OrderUpdateEventProcessor.processOrderUpdateEventWithRetry oenv ev ctx
        0).snd).length ≤ 3 ∧
    (delays (ProductEventProcessor.processProductEventWithRetry penv ev ctx
        0).snd).length ≤ 5 ∧
    (delays (RecommendationEventProcessor.processRecommendationEvent renv ev
        ctx).snd).length ≤ 3 := by
  refine ⟨?_, ?_, ?_, ?_⟩
  · exact UserUpdateEventProcessor.userDelays_bound uenv ev ctx 0
  · exact OrderUpdateEventProcessor.orderDelays_bound oenv ev ctx 0
  · exact ProductEventProcessor.productDelays_bound penv ev ctx 0
  · exact le_trans (RecommendationEventProcessor.recDelays_bound renv ev ctx 0) (by decide)

/-- C8: a recommendation event whose list is empty or absent, whose user id
is missing or empty, or one of whose items fails the
id/name/numeric-price/category check, is rejected inside the first loop
iteration with `false` and an empty effect trace — no network call of any
kind and no retry consumed. -/
theorem c8_invalid_recommendation_rejected
    (env : RecEnv) (ev : RawEvent) (ctx : MessageMetadata)
    (h : ev.recommendations = some [] ∨ ev.userId = none ∨ ev.userId = some "" ∨
      ev.recommendations = none ∨
      ∃ r ∈ ev.recommendations.getD [],
        RecommendationEventProcessor.validateRecommendationItem r = false) :
    RecommendationEventProcessor.processRecommendationEvent env ev ctx = (false, []) := by
  apply RecommendationEventProcessor.invalid_event
  rcases h with h | h | h | h | ⟨r, hr, hbad⟩
  · simp [RecommendationEventProcessor.validateEvent, h]
  · simp [RecommendationEventProcessor.validateEvent, strTruthy, h]
  · simp [RecommendationEventProcessor.validateEvent, strTruthy, h]
  · simp [RecommendationEventProcessor.validateEvent, h]
  · rw [RecommendationEventProcessor.validateEvent]
    cases hrecs : ev.recommendations with
    | none => simp
    | some recs =>
        rw [hrecs] at hr
        simp only [Option.getD_some] at hr
        have hall : recs.all RecommendationEventProcessor.validateRecommendationItem
            = false := by
          rw [List.all_eq_false]
          exact ⟨r, hr, by simp [hbad]⟩
        simp [hall]

/-- A concrete recommendation event with an empty item list. -/
def wRecEventEmpty : RawEvent :=
  { userId := some "u1", recommendations := some [], timestamp := some "t" }

/-- C8 witness: the empty-list event is rejected with an empty trace. -/
theorem c8_invalid_recommendation_rejected_witness :
    RecommendationEventProcessor.processRecommendationEvent wRecEnvOk wRecEventEmpty
      wCtx = (false, []) :=
  c8_invalid_recommendation_rejected wRecEnvOk wRecEventEmpty wCtx (Or.inl rfl)

/-- C10: every notification record created by any of the four processors —
on the event-driven paths and on the catalog sweep (the only sweep that
creates records; the recommendation sweep only resends) — is created with
`read = false`. -/
theorem c10_records_created_unread
    (uenv : UserEnv) (oenv : OrderEnv) (penv : ProductEnv) (renv : RecEnv)
    (ev : RawEvent) (ctx : MessageMetadata) :
    (∀ r ∈ createdRecords (UserUpdateEventProcessor.processUserUpdateEventWithRetry
        uenv ev ctx 0).snd, r.read = false) ∧
    (∀ r ∈ createdRecords (OrderUpdateEventProcessor.processOrderUpdateEventWithRetry
        oenv ev ctx 0).snd, r.read = false) ∧
    (∀ r ∈ createdRecords (ProductEventProcessor.processProductEventWithRetry
        penv ev ctx 0).snd, r.read = false) ∧
    (∀ r ∈ createdRecords (RecommendationEventProcessor.processRecommendationEvent
        renv ev ctx).snd, r.read = false) ∧
    (∀ r ∈ createdRecords (ProductEventProcessor.sendRandomUserNotifications penv),
      r.read = false) :=
  ⟨UserUpdateEventProcessor.userRead_false uenv ev ctx 0,
   OrderUpdateEventProcessor.orderRead_false oenv ev ctx 0,
   ProductEventProcessor.productRead_false penv ev ctx 0,
   RecommendationEventProcessor.recRead_false renv ev ctx 0,
   ProductEventProcessor.sweep_read_false penv⟩

/-- C10 witness: the record the account-lifecycle chain creates on a clean
first attempt is indeed reported unread by the theorem. -/
theorem c10_records_created_unread_witness :
    (UserUpdateEventProcessor.mkRecord (some "u1") "u1@mail.com" 0).read = false := by
  have hcr : createdRecords (UserUpdateEventProcessor.processUserUpdateEventWithRetry
      wUserEnvOk wUserEvent wCtx 0).snd =
      [UserUpdateEventProcessor.mkRecord (some "u1") "u1@mail.com" 0] :=
    (UserUpdateEventProcessor.userChain wUserEnvOk wUserEvent wCtx
      (fun _ => "u1@mail.com") (fun _ => "") 0 (by decide) (fun _ => rfl)
      (fun i hi => absurd hi (Nat.not_lt_zero i)) rfl 0 (le_refl 0)).2.1
  exact (c10_records_created_unread wUserEnvOk wOrderEnvOk wProductEnvOk wRecEnvOk
    wUserEvent wCtx).1 _ (by rw [hcr]; simp)

/-! ## Consumer-router lemmas -/

namespace NotificationProcessorService

/-- When the account-lifecycle processor returns `false` and the producer
works, the high-priority handler publishes a SECOND dead-letter envelope
with the fixed router-level reason, after the one the processor already
published. -/
theorem high_false_second_publish (uenv : UserEnv) (oenv : OrderEnv) (s : String)
    (ev : RawEvent) (p : Nat) (off : String)
    (hfalse : (UserUpdateEventProcessor.processUserUpdateEventWithRetry uenv ev
      { topic := "user-events", partition := p, offset := off } 0).fst = false) :
    processHighPriorityMessage uenv oenv none "user-events" (some s) (some ev) p off =
      (Except.ok (),
        (UserUpdateEventProcessor.processUserUpdateEventWithRetry uenv ev
          { topic := "user-events", partition := p, offset := off } 0).snd ++
        [Effect.dlqPublish ("user-events-" ++ toString p ++ "-" ++ off)
          { originalTopic := "user-events", partition := p, offset := off,
            reason := "High Priority Event Processing Failed" }]) := by
  simp only [processHighPriorityMessage, if_true]
  simp only [handleFailedProcessing, hfalse, queueFailedMessage]
  simp

/-- When the router-level publish itself rejects, the error escapes the
high-priority handler (the only escape besides the parse error). -/
theorem high_publish_failure_propagates (uenv : UserEnv) (oenv : OrderEnv) (e s : String)
    (ev : RawEvent) (p : Nat) (off : String)
    (hfalse : (UserUpdateEventProcessor.processUserUpdateEventWithRetry uenv ev
      { topic := "user-events", partition := p, offset := off } 0).fst = false) :
    (processHighPriorityMessage uenv oenv (some e) "user-events" (some s) (some ev)
      p off).fst = Except.error e := by
  simp only [processHighPriorityMessage, if_true]
  simp only [handleFailedProcessing, hfalse, queueFailedMessage, handleProcessingError]
  simp

end NotificationProcessorService

/-- C1, counterexample to "exactly one Dead-Letter Envelope is published
for that event": for a user event whose persistence rejects on every
attempt, the delivered message ends with TWO published envelopes — the
processor publishes one with the wrapped last error as reason, and the
consumer, seeing the `false` result, publishes a second one with the fixed
router reason. -/
theorem c1_counterexample :
    dlqMetas (NotificationProcessorService.processHighPriorityMessage wUserEnvAllFail
        wOrderEnvOk none "user-events" (some "body") (some wUserEvent) 2 "41").snd =
      [{ originalTopic := "user-events", partition := 2, offset := "41",
         reason := "Notification processing failed: store down" },
       { originalTopic := "user-events", partition := 2, offset := "41",
         reason := "High Priority Event Processing Failed" }] ∧
    ([{ originalTopic := "user-events", partition := 2, offset := "41",
        reason := "Notification processing failed: store down" },
      { originalTopic := "user-events", partition := 2, offset := "41",
        reason := "High Priority Event Processing Failed" }] : List DLQMetadata).length
      ≠ 1 := by
  have hall := UserUpdateEventProcessor.userAllFail wUserEnvAllFail wUserEvent
    { topic := "user-events", partition := 2, offset := "41" }
    (fun _ => "u1@mail.com") (fun _ => "store down") (fun _ => rfl) (fun _ => rfl) rfl 0
  refine ⟨?_, by decide⟩
  rw [NotificationProcessorService.high_false_second_publish wUserEnvAllFail wOrderEnvOk
    "body" wUserEvent 2 "41" hall.1]
  dsimp only
  rw [dlqMetas_append, hall.2.2]
  rfl

/-- C1 amended: for every event whose persistence rejects on every attempt
until the budget is exhausted, `processWithRetry` returns `false`, creates
no record, and itself publishes exactly one Dead-Letter Envelope whose
reason is the last error message (wrapped for the account/order variants)
and whose metadata carries the original partition and offset; the consumer
wrapper then publishes a second, generic-reason envelope for the same
event, so the pipeline publishes two envelopes in total. -/
theorem c1_amended :
    (∀ (env : UserEnv) (ev : RawEvent) (ctx : MessageMetadata) (em f : Nat → String),
      (∀ n, env.lookupAt n = LookupResult.found (some (em n))) →
      (∀ n, env.createFail n = some (f n)) → env.producerFail = none →
      (UserUpdateEventProcessor.processUserUpdateEventWithRetry env ev ctx 0).fst
        = false ∧
      createdRecords (UserUpdateEventProcessor.processUserUpdateEventWithRetry env ev
        ctx 0).snd = [] ∧
      dlqMetas (UserUpdateEventProcessor.processUserUpdateEventWithRetry env ev
        ctx 0).snd =
        [{ originalTopic := ctx.topic, partition := ctx.partition, offset := ctx.offset,
           reason := "Notification processing failed: " ++ f 5 }]) ∧
    (∀ (env : OrderEnv) (ev : RawEvent) (ctx : MessageMetadata) (em f : Nat → String),
      strTruthy ev.userId = true →
      (∀ n, env.lookupAt n = LookupResult.found (some (em n))) →
      (∀ n, env.createFail n = some (f n)) → env.producerFail = none →
      (OrderUpdateEventProcessor.processOrderUpdateEventWithRetry env ev ctx 0).fst
        = false ∧
      createdRecords (OrderUpdateEventProcessor.processOrderUpdateEventWithRetry env ev
        ctx 0).snd = [] ∧
      dlqMetas (OrderUpdateEventProcessor.processOrderUpdateEventWithRetry env ev
        ctx 0).snd =
        [{ originalTopic := ctx.topic, partition := ctx.partition, offset := ctx.offset,
           reason := "Notification processing failed: " ++ f 3 }]) ∧
    (∀ (env : ProductEnv) (ev : RawEvent) (ctx : MessageMetadata) (f : Nat → String),
      (∀ n, env.createFail n = some (f n)) → (∀ n, f n ≠ "") →
      env.producerFail = none →
      (ProductEventProcessor.processProductEventWithRetry env ev ctx 0).fst = false ∧
      createdRecords (ProductEventProcessor.processProductEventWithRetry env ev
        ctx 0).snd = [] ∧
      dlqMetas (ProductEventProcessor.processProductEventWithRetry env ev ctx 0).snd =
        [{ originalTopic := ctx.topic, partition := ctx.partition, offset := ctx.offset,
           reason := f 5 }]) ∧
    (∀ (env : RecEnv) (ev : RawEvent) (ctx : MessageMetadata) (u : Nat → RecUser)
        (f : Nat → String),
      RecommendationEventProcessor.validateEvent ev = true →
      (∀ n, env.getUserAt n = some (u n)) → (∀ n, (u n).optedIn = true) →
      (∀ n, env.createFail n = some (f n)) → f 2 ≠ "" → env.producerFail = none →
      (RecommendationEventProcessor.processRecommendationEvent env ev ctx).fst = false ∧
      createdRecords (RecommendationEventProcessor.processRecommendationEvent env ev
        ctx).snd = [] ∧
      dlqMetas (RecommendationEventProcessor.processRecommendationEvent env ev
        ctx).snd =
        [{ originalTopic := ctx.topic, partition := ctx.partition, offset := ctx.offset,
           reason := f 2 }]) ∧
    (∀ (uenv : UserEnv) (oenv : OrderEnv) (s : String) (ev : RawEvent) (p : Nat)
        (off : String),
      (UserUpdateEventProcessor.processUserUpdateEventWithRetry uenv ev
        { topic := "user-events", partition := p, offset := off } 0).fst = false →
      dlqMetas (NotificationProcessorService.processHighPriorityMessage uenv oenv none
        "user-events" (some s) (some ev) p off).snd =
        dlqMetas (UserUpdateEventProcessor.processUserUpdateEventWithRetry uenv ev
          { topic := "user-events", partition := p, offset := off } 0).snd ++
        [{ originalTopic := "user-events", partition := p, offset := off,
           reason := "High Priority Event Processing Failed" }]) := by
  refine ⟨?_, ?_, ?_, ?_, ?_⟩
  · intro env ev ctx em f hl hc hp
    exact UserUpdateEventProcessor.userAllFail env ev ctx em f hl hc hp 0
  · intro env ev ctx em f hv hl hc hp
    exact OrderUpdateEventProcessor.orderAllFail env ev ctx em f hv hl hc hp 0
  · intro env ev ctx f hc hne hp
    exact ProductEventProcessor.productAllFail env ev ctx f hc hne hp 0
  · intro env ev ctx u f hv hu ho hc hne hp
    obtain ⟨h1, h2, _, h4⟩ := RecommendationEventProcessor.loop_allFail env ev ctx f
      (fun n hn => RecommendationEventProcessor.attempt_fail_create env ev n (u n) (f n)
        hv (hu n) (ho n) (hc n)) hne hp 0 (by decide)
    exact ⟨h1, h2, h4⟩
  · intro uenv oenv s ev p off hfalse
    rw [NotificationProcessorService.high_false_second_publish uenv oenv s ev p off
      hfalse]
    dsimp only
    rw [dlqMetas_append]
    rfl

/-- C1 witness: concrete instances of the processor-level and router-level
parts of the amended claim. -/
theorem c1_amended_witness :
    ((UserUpdateEventProcessor.processUserUpdateEventWithRetry wUserEnvAllFail
      wUserEvent wCtx 0).fst = false) ∧
    ((OrderUpdateEventProcessor.processOrderUpdateEventWithRetry wOrderEnvAllFail
      wOrderEvent wCtx 0).fst = false) ∧
    ((ProductEventProcessor.processProductEventWithRetry wProductEnvAllFail
      wProductEvent wCtx 0).fst = false) ∧
    ((RecommendationEventProcessor.processRecommendationEvent wRecEnvAllFail
      wRecEvent wCtx).fst = false) ∧
    dlqMetas (NotificationProcessorService.processHighPriorityMessage wUserEnvAllFail
        wOrderEnvOk none "user-events" (some "body") (some wUserEvent) 2 "41").snd =
      dlqMetas (UserUpdateEventProcessor.processUserUpdateEventWithRetry wUserEnvAllFail
        wUserEvent { topic := "user-events", partition := 2, offset := "41" } 0).snd ++
      [{ originalTopic := "user-events", partition := 2, offset := "41",
         reason := "High Priority Event Processing Failed" }] := by
  refine ⟨(c1_amended.1 wUserEnvAllFail wUserEvent wCtx (fun _ => "u1@mail.com")
      (fun _ => "store down") (fun _ => rfl) (fun _ => rfl) rfl).1,
    (c1_amended.2.1 wOrderEnvAllFail wOrderEvent wCtx (fun _ => "u1@mail.com")
      (fun _ => "store down") (by decide) (fun _ => rfl) (fun _ => rfl) rfl).1,
    (c1_amended.2.2.1 wProductEnvAllFail wProductEvent wCtx (fun _ => "store down")
      (fun _ => rfl) (fun _ => (by decide : ("store down" : String) ≠ ""))
      rfl).1,
    (c1_amended.2.2.2.1 wRecEnvAllFail wRecEvent wCtx (fun _ => wRecUser)
      (fun _ => "store down") (by decide) (fun _ => rfl) (fun _ => rfl) (fun _ => rfl)
      (by decide) rfl).1,
    c1_amended.2.2.2.2 wUserEnvAllFail wOrderEnvOk "body" wUserEvent 2 "41" ?_⟩
  exact (UserUpdateEventProcessor.userAllFail wUserEnvAllFail wUserEvent
    { topic := "user-events", partition := 2, offset := "41" }
    (fun _ => "u1@mail.com") (fun _ => "store down") (fun _ => rfl) (fun _ => rfl)
    rfl 0).1

/-- C3, counterexample: the recommendation processor, on an event whose
persistence fails exactly once (`k = 1`) and then succeeds, waits `2 ^ 1 *
1000 = 2000` ms after the failure of attempt `0` — not `2 ^ 0 * baseDelay`
as the claim states for every processor — and the record created by the
successful attempt carries no `metadata.retryCount` at all (so not
`retryCount == k`). -/
theorem c3_counterexample :
    delays (RecommendationEventProcessor.processRecommendationEvent wRecEnvFailOnce
        wRecEvent wCtx).snd = [2000] ∧
    (2000 : Nat) ≠ 2 ^ 0 * 1000 ∧
    (createdRecords (RecommendationEventProcessor.processRecommendationEvent
        wRecEnvFailOnce wRecEvent wCtx).snd).map NotificationRecord.retryCount =
      [none] ∧
    (RecommendationEventProcessor.processRecommendationEvent wRecEnvFailOnce wRecEvent
        wCtx).fst = true := by
  have hA : ∀ i, i < 1 →
      RecommendationEventProcessor.attemptAt wRecEnvFailOnce wRecEvent i =
        (RecommendationEventProcessor.AttemptResult.failed "store down",
          [Effect.lookupUser (wRecEvent.userId.getD "")]) := by
    intro i hi
    rw [Nat.lt_one_iff.mp hi]
    exact RecommendationEventProcessor.attempt_fail_create wRecEnvFailOnce wRecEvent 0
      wRecUser "store down" (by decide) rfl rfl rfl
  have hS := RecommendationEventProcessor.attempt_ok_create wRecEnvFailOnce wRecEvent 1
    wRecUser (by decide) rfl rfl rfl
  obtain ⟨hfst, hcr, hdel, _⟩ := RecommendationEventProcessor.loop_chain wRecEnvFailOnce
    wRecEvent wCtx (fun _ => "store down") _ 1 (by decide) hA hS 0 (Nat.zero_le 1)
  have hbridge : RecommendationEventProcessor.processRecommendationEvent wRecEnvFailOnce
      wRecEvent wCtx =
      RecommendationEventProcessor.processLoop wRecEnvFailOnce wRecEvent wCtx 0 := rfl
  refine ⟨?_, by decide, ?_, ?_⟩
  · rw [hbridge, hdel]
    rfl
  · rw [hbridge, hcr]
    rfl
  · rw [hbridge, hfst]

/-- C3 amended: for the account-lifecycle, order-lifecycle and catalog
processors the claim holds as stated — after `k < maxRetries` failures the
chain backs off `2 ^ i * baseDelay` after the failure of attempt `i`
(bases `500`, `1000`, `500`) and the final record has
`metadata.retryCount = k`.  The recommendation processor instead backs off
`2 ^ (i + 1) * 1000` after the failure of attempt `i`, and its records
carry no `retryCount` key at all. -/
theorem c3_amended :
    (∀ (env : UserEnv) (ev : RawEvent) (ctx : MessageMetadata) (em f : Nat → String)
        (k : Nat), k < 5 →
      (∀ n, env.lookupAt n = LookupResult.found (some (em n))) →
      (∀ i, i < k → env.createFail i = some (f i)) → env.createFail k = none →
      (UserUpdateEventProcessor.processUserUpdateEventWithRetry env ev ctx 0).fst
        = true ∧
      delays (UserUpdateEventProcessor.processUserUpdateEventWithRetry env ev
        ctx 0).snd = (List.range k).map (fun i => 2 ^ i * 500) ∧
      createdRecords (UserUpdateEventProcessor.processUserUpdateEventWithRetry env ev
        ctx 0).snd = [UserUpdateEventProcessor.mkRecord ev.userId (em k) k] ∧
      (UserUpdateEventProcessor.mkRecord ev.userId (em k) k).retryCount = some k) ∧
    (∀ (env : OrderEnv) (ev : RawEvent) (ctx : MessageMetadata) (em f : Nat → String)
        (k : Nat), k < 3 → strTruthy ev.userId = true →
      (∀ n, env.lookupAt n = LookupResult.found (some (em n))) →
      (∀ i, i < k → env.createFail i = some (f i)) → env.createFail k = none →
      (OrderUpdateEventProcessor.processOrderUpdateEventWithRetry env ev ctx 0).fst
        = true ∧
      delays (OrderUpdateEventProcessor.processOrderUpdateEventWithRetry env ev
        ctx 0).snd = (List.range k).map (fun i => 2 ^ i * 1000) ∧
      createdRecords (OrderUpdateEventProcessor.processOrderUpdateEventWithRetry env ev
        ctx 0).snd = [OrderUpdateEventProcessor.mkRecord (ev.userId.getD "") (em k) k] ∧
      (OrderUpdateEventProcessor.mkRecord (ev.userId.getD "") (em k) k).retryCount
        = some k) ∧
    (∀ (env : ProductEnv) (ev : RawEvent) (ctx : MessageMetadata) (f : Nat → String)
        (k : Nat), k < 5 →
      (∀ i, i < k → env.createFail i = some (f i)) → env.createFail k = none →
      (ProductEventProcessor.processProductEventWithRetry env ev ctx 0).fst = true ∧
      delays (ProductEventProcessor.processProductEventWithRetry env ev ctx 0).snd =
        (List.range k).map (fun i => 2 ^ i * 500) ∧
      createdRecords (ProductEventProcessor.processProductEventWithRetry env ev
        ctx 0).snd = [ProductEventProcessor.mkRecord ev.userId ev.email (some k)] ∧
      (ProductEventProcessor.mkRecord ev.userId ev.email (some k)).retryCount
        = some k) ∧
    (∀ (env : RecEnv) (ev : RawEvent) (ctx : MessageMetadata) (u : Nat → RecUser)
        (f : Nat → String) (k : Nat), k < 3 →
      RecommendationEventProcessor.validateEvent ev = true →
      (∀ n, env.getUserAt n = some (u n)) → (∀ n, (u n).optedIn = true) →
      (∀ i, i < k → env.createFail i = some (f i)) → env.createFail k = none →
      (RecommendationEventProcessor.processRecommendationEvent env ev ctx).fst = true ∧
      delays (RecommendationEventProcessor.processRecommendationEvent env ev ctx).snd =
        (List.range k).map (fun i => 2 ^ (i + 1) * 1000) ∧
      createdRecords (RecommendationEventProcessor.processRecommendationEvent env ev
        ctx).snd = [RecommendationEventProcessor.mkRecord (u k)] ∧
      (RecommendationEventProcessor.mkRecord (u k)).retryCount = none) := by
  refine ⟨?_, ?_, ?_, ?_⟩
  · intro env ev ctx em f k hk hl hf hs
    obtain ⟨h1, h2, h3, _⟩ := UserUpdateEventProcessor.userChain env ev ctx em f k
      (le_of_lt hk) hl hf hs 0 (Nat.zero_le k)
    refine ⟨h1, ?_, h2, rfl⟩
    rw [h3, Nat.sub_zero]
    exact List.map_congr_left fun i _ => by rw [Nat.zero_add]
  · intro env ev ctx em f k hk hv hl hf hs
    obtain ⟨h1, h2, h3, _⟩ := OrderUpdateEventProcessor.orderChain env ev ctx em f k
      (le_of_lt hk) hv hl hf hs 0 (Nat.zero_le k)
    refine ⟨h1, ?_, h2, rfl⟩
    rw [h3, Nat.sub_zero]
    exact List.map_congr_left fun i _ => by rw [Nat.zero_add]
  · intro env ev ctx f k hk hf hs
    obtain ⟨h1, h2, h3, _⟩ := ProductEventProcessor.productChain env ev ctx f k
      (le_of_lt hk) hf hs 0 (Nat.zero_le k)
    refine ⟨h1, ?_, h2, rfl⟩
    rw [h3, Nat.sub_zero]
    exact List.map_congr_left fun i _ => by rw [Nat.zero_add]
  · intro env ev ctx u f k hk hv hu ho hf hs
    have hA : ∀ i, i < k →
        RecommendationEventProcessor.attemptAt env ev i =
          (RecommendationEventProcessor.AttemptResult.failed (f i),
            [Effect.lookupUser (ev.userId.getD "")]) :=
      fun i hi => RecommendationEventProcessor.attempt_fail_create env ev i (u i) (f i)
        hv (hu i) (ho i) (hf i hi)
    have hS := RecommendationEventProcessor.attempt_ok_create env ev k (u k)
      hv (hu k) (ho k) hs
    obtain ⟨h1, h2, h3, _⟩ := RecommendationEventProcessor.loop_chain env ev ctx f _ k
      hk hA hS 0 (Nat.zero_le k)
    have hbridge : RecommendationEventProcessor.processRecommendationEvent env ev ctx =
        RecommendationEventProcessor.processLoop env ev ctx 0 := rfl
    refine ⟨by rw [hbridge, h1], ?_, ?_, rfl⟩
    · rw [hbridge, h3, Nat.sub_zero]
      exact List.map_congr_left fun i _ => by
        rw [show 0 + 1 + i = i + 1 from by omega]
    · rw [hbridge, h2]
      obtain ⟨hq, _, _⟩ := RecommendationEventProcessor.sendEmailNotification_quiet
        (env.innerLookupAt k) (env.innerMailFail k)
      simp only [createdRecords] at hq ⊢
      simp [List.filterMap_cons, List.filterMap_append, hq]

/-- C3 witness: the account-lifecycle chain on a store that rejects once
then accepts waits `500` ms and records `retryCount = 1`. -/
theorem c3_amended_witness :
    (UserUpdateEventProcessor.processUserUpdateEventWithRetry wUserEnvFailOnce
      wUserEvent wCtx 0).fst = true ∧
    delays (UserUpdateEventProcessor.processUserUpdateEventWithRetry wUserEnvFailOnce
      wUserEvent wCtx 0).snd = [500] ∧
    createdRecords (UserUpdateEventProcessor.processUserUpdateEventWithRetry
      wUserEnvFailOnce wUserEvent wCtx 0).snd =
      [UserUpdateEventProcessor.mkRecord (some "u1") "u1@mail.com" 1] := by
  obtain ⟨h1, h2, h3, _⟩ := c3_amended.1 wUserEnvFailOnce wUserEvent wCtx
    (fun _ => "u1@mail.com") (fun _ => "store down") 1 (by decide) (fun _ => rfl)
    (fun i hi => by rw [Nat.lt_one_iff.mp hi]; rfl) rfl
  exact ⟨h1, by rw [h2]; rfl, h3⟩

/-- C5, counterexample to "no notification record is created": for an
order event whose recipient lookup succeeds but carries no email, the
order processor coerces the email to the empty string and still creates a
record (while returning `true`). -/
theorem c5_counterexample :
    (OrderUpdateEventProcessor.processOrderUpdateEventWithRetry wOrderEnvNoEmail
      wOrderEvent wCtx 0).fst = true ∧
    createdRecords (OrderUpdateEventProcessor.processOrderUpdateEventWithRetry
      wOrderEnvNoEmail wOrderEvent wCtx 0).snd =
      [OrderUpdateEventProcessor.mkRecord "u1" "" 0] ∧
    [OrderUpdateEventProcessor.mkRecord "u1" "" 0] ≠ ([] : List NotificationRecord) := by
  rw [OrderUpdateEventProcessor.processOrderUpdateEventWithRetry]
  exact ⟨by decide, by decide, by decide⟩

/-- C5 amended: only the account-lifecycle processor implements the
soft-success — on a lookup that succeeds without an email it returns
`true` having performed nothing but the lookup (no record, no retry, no
dead-letter).  The order-lifecycle processor in the same situation also
returns `true` without retrying or dead-lettering, but creates a record
whose email is the empty string.  The recommendation processor treats the
missing email as a retryable failure and eventually dead-letters the
event.  (The catalog processor performs no recipient lookup.) -/
theorem c5_amended :
    (∀ (env : UserEnv) (ev : RawEvent) (ctx : MessageMetadata),
      env.lookupAt 0 = LookupResult.found none →
      UserUpdateEventProcessor.processUserUpdateEventWithRetry env ev ctx 0 =
        (true, [Effect.lookupUser (ev.userId.getD "")])) ∧
    (∀ (env : OrderEnv) (ev : RawEvent) (ctx : MessageMetadata),
      strTruthy ev.userId = true → env.lookupAt 0 = LookupResult.found none →
      env.createFail 0 = none →
      (OrderUpdateEventProcessor.processOrderUpdateEventWithRetry env ev ctx 0).fst
        = true ∧
      createdRecords (OrderUpdateEventProcessor.processOrderUpdateEventWithRetry env ev
        ctx 0).snd = [OrderUpdateEventProcessor.mkRecord (ev.userId.getD "") "" 0] ∧
      delays (OrderUpdateEventProcessor.processOrderUpdateEventWithRetry env ev
        ctx 0).snd = [] ∧
      dlqMetas (OrderUpdateEventProcessor.processOrderUpdateEventWithRetry env ev
        ctx 0).snd = []) ∧
    (∀ (env : RecEnv) (ev : RawEvent) (ctx : MessageMetadata),
      RecommendationEventProcessor.validateEvent ev = true →
      (∀ n, env.getUserAt n = none) → env.producerFail = none →
      (RecommendationEventProcessor.processRecommendationEvent env ev ctx).fst = false ∧
      createdRecords (RecommendationEventProcessor.processRecommendationEvent env ev
        ctx).snd = [] ∧
      dlqMetas (RecommendationEventProcessor.processRecommendationEvent env ev
        ctx).snd =
        [{ originalTopic := ctx.topic, partition := ctx.partition, offset := ctx.offset,
           reason := "User data not found for userId: " ++ ev.userId.getD "" }]) := by
  refine ⟨?_, ?_, ?_⟩
  · intro env ev ctx hl
    rw [UserUpdateEventProcessor.processUserUpdateEventWithRetry]
    rw [UserUpdateEventProcessor.createNotificationForEvent, hl]
    simp [UserUpdateEventProcessor.getUserEmail]
  · intro env ev ctx hv hl hc
    rw [OrderUpdateEventProcessor.processOrderUpdateEventWithRetry]
    rw [OrderUpdateEventProcessor.orderAttempt]
    simp only [OrderUpdateEventProcessor.validateEvent, hv, if_true]
    rw [OrderUpdateEventProcessor.createNotificationForEvent, hl, hc]
    simp only [OrderUpdateEventProcessor.getUserEmail]
    cases hm : env.mailFail 0 <;>
      simp [OrderUpdateEventProcessor.handleEmailNotification, hm, createdRecords,
        delays, dlqMetas, OrderUpdateEventProcessor.mkRecord]
  · intro env ev ctx hv hu hp
    obtain ⟨h1, h2, _, h4⟩ := RecommendationEventProcessor.loop_allFail env ev ctx
      (fun _ => "User data not found for userId: " ++ ev.userId.getD "")
      (fun n hn => RecommendationEventProcessor.attempt_fail_lookup env ev n hv (hu n))
      (append_ne_empty_of_left _ _ (by decide)) hp 0 (by decide)
    exact ⟨h1, h2, h4⟩

/-- C5 witness: concrete instances of the three parts. -/
theorem c5_amended_witness :
    (UserUpdateEventProcessor.processUserUpdateEventWithRetry wUserEnvNoEmail
      wUserEvent wCtx 0 = (true, [Effect.lookupUser "u1"])) ∧
    ((OrderUpdateEventProcessor.processOrderUpdateEventWithRetry wOrderEnvNoEmail
      wOrderEvent wCtx 0).fst = true) ∧
    ((RecommendationEventProcessor.processRecommendationEvent wRecEnvNoUser wRecEvent
      wCtx).fst = false) :=
  ⟨c5_amended.1 wUserEnvNoEmail wUserEvent wCtx rfl,
   (c5_amended.2.1 wOrderEnvNoEmail wOrderEvent wCtx (by decide) rfl rfl).1,
   (c5_amended.2.2 wRecEnvNoUser wRecEvent wCtx (by decide) (fun _ => rfl) rfl).1⟩

/-- C6: for a critical-priority event whose persistence succeeds, the mail
transport is invoked, and when it raises, the failure is only logged: the
attempt still succeeds, the persisted record remains the one record of the
trace, no retry and no dead-letter happen, and `processWithRetry` returns
`true` — for both the account-lifecycle and the order-lifecycle
processors. -/
theorem c6_mail_failure_only_logged :
    (∀ (env : UserEnv) (ev : RawEvent) (ctx : MessageMetadata) (em m : String),
      env.lookupAt 0 = LookupResult.found (some em) → env.createFail 0 = none →
      env.mailFail 0 = some m →
      (UserUpdateEventProcessor.processUserUpdateEventWithRetry env ev ctx 0).fst
        = true ∧
      createdRecords (UserUpdateEventProcessor.processUserUpdateEventWithRetry env ev
        ctx 0).snd = [UserUpdateEventProcessor.mkRecord ev.userId em 0] ∧
      Effect.sendMail (ev.userId.getD "") ∈
        (UserUpdateEventProcessor.processUserUpdateEventWithRetry env ev ctx 0).snd ∧
      Effect.logMailFailure m ∈
        (UserUpdateEventProcessor.processUserUpdateEventWithRetry env ev ctx 0).snd ∧
      delays (UserUpdateEventProcessor.processUserUpdateEventWithRetry env ev
        ctx 0).snd = [] ∧
      dlqMetas (UserUpdateEventProcessor.processUserUpdateEventWithRetry env ev
        ctx 0).snd = []) ∧
    (∀ (env : OrderEnv) (ev : RawEvent) (ctx : MessageMetadata) (em m : String),
      strTruthy ev.userId = true →
      env.lookupAt 0 = LookupResult.found (some em) → env.createFail 0 = none →
      env.mailFail 0 = some m →
      (OrderUpdateEventProcessor.processOrderUpdateEventWithRetry env ev ctx 0).fst
        = true ∧
      createdRecords (OrderUpdateEventProcessor.processOrderUpdateEventWithRetry env ev
        ctx 0).snd = [OrderUpdateEventProcessor.mkRecord (ev.userId.getD "") em 0] ∧
      Effect.sendMail (ev.userId.getD "") ∈
        (OrderUpdateEventProcessor.processOrderUpdateEventWithRetry env ev ctx 0).snd ∧
      Effect.logMailFailure m ∈
        (OrderUpdateEventProcessor.processOrderUpdateEventWithRetry env ev ctx 0).snd ∧
      delays (OrderUpdateEventProcessor.processOrderUpdateEventWithRetry env ev
        ctx 0).snd = [] ∧
      dlqMetas (OrderUpdateEventProcessor.processOrderUpdateEventWithRetry env ev
        ctx 0).snd = []) := by
  constructor
  · intro env ev ctx em m hl hc hm
    rw [UserUpdateEventProcessor.processUserUpdateEventWithRetry]
    rw [UserUpdateEventProcessor.createNotificationForEvent, hl, hc]
    simp only [UserUpdateEventProcessor.getUserEmail]
    simp [UserUpdateEventProcessor.handleCriticalNotification, hm, createdRecords,
      delays, dlqMetas, UserUpdateEventProcessor.mkRecord]
  · intro env ev ctx em m hv hl hc hm
    rw [OrderUpdateEventProcessor.processOrderUpdateEventWithRetry]
    rw [OrderUpdateEventProcessor.orderAttempt_ok env ev 0 em hv hl hc]
    dsimp only
    simp [OrderUpdateEventProcessor.handleEmailNotification, hm, createdRecords,
      delays, dlqMetas, OrderUpdateEventProcessor.mkRecord]

/-- C6 witness: concrete instances of both parts. -/
theorem c6_mail_failure_only_logged_witness :
    ((UserUpdateEventProcessor.processUserUpdateEventWithRetry wUserEnvMailFail
      wUserEvent wCtx 0).fst = true) ∧
    ((OrderUpdateEventProcessor.processOrderUpdateEventWithRetry wOrderEnvMailFail
      wOrderEvent wCtx 0).fst = true) :=
  ⟨(c6_mail_failure_only_logged.1 wUserEnvMailFail wUserEvent wCtx "u1@mail.com"
      "smtp down" rfl rfl rfl).1,
   (c6_mail_failure_only_logged.2 wOrderEnvMailFail wOrderEvent wCtx "u1@mail.com"
      "smtp down" (by decide) rfl rfl rfl).1⟩

/-- C7, counterexample to "re-raised to the caller of the dead-letter
handling entry point": `handleFailedMessage` — the entry point every
processor calls — catches the publish failure and returns normally, so
its caller never sees the error. -/
theorem c7_counterexample :
    handleFailedMessage (some "kafka down") "user-events" "boom" 2 "41" =
      (Except.ok (),
        [Effect.logDlqFailure "kafka down",
         Effect.logDlqFailure "Failed to handle message and send to DLQ: kafka down"]) :=
  rfl

/-- C7 amended: a dead-letter publish failure is logged and re-raised by
`queueFailedMessage`, but `handleFailedMessage` — the entry point the
processors use — catches it and only logs, returning normally whatever
the producer does; the failure reaches the broker client only through the
consumer services direct `queueFailedMessage` calls
(`handleFailedProcessing` / `handleProcessingError`), as witnessed by the
high-priority handler returning the error when the router-level publish
rejects. -/
theorem c7_amended :
    (∀ (e topic : String) (md : DLQMetadata),
      queueFailedMessage (some e) topic md =
        (Except.error e, [Effect.logDlqFailure e])) ∧
    (∀ (pf : Option String) (topic msg : String) (p : Nat) (off : String),
      (handleFailedMessage pf topic msg p off).fst = Except.ok ()) ∧
    (∀ (uenv : UserEnv) (oenv : OrderEnv) (e s : String) (ev : RawEvent) (p : Nat)
        (off : String),
      (UserUpdateEventProcessor.processUserUpdateEventWithRetry uenv ev
        { topic := "user-events", partition := p, offset := off } 0).fst = false →
      (NotificationProcessorService.processHighPriorityMessage uenv oenv (some e)
        "user-events" (some s) (some ev) p off).fst = Except.error e) := by
  refine ⟨fun e topic md => rfl, ?_, ?_⟩
  · intro pf topic msg p off
    exact (handleFailedMessage_quiet pf topic msg p off).2.2
  · intro uenv oenv e s ev p off hfalse
    exact NotificationProcessorService.high_publish_failure_propagates uenv oenv e s ev
      p off hfalse

/-- C7 witness: concrete instances, the propagation part instantiated with
an always-failing store. -/
theorem c7_amended_witness :
    (queueFailedMessage (some "kafka down") "user-events"
      { originalTopic := "user-events", partition := 2, offset := "41",
        reason := "boom" } =
      (Except.error "kafka down", [Effect.logDlqFailure "kafka down"])) ∧
    ((handleFailedMessage (some "kafka down") "user-events" "boom" 2 "41").fst =
      Except.ok ()) ∧
    ((NotificationProcessorService.processHighPriorityMessage wUserEnvAllFail
      wOrderEnvOk (some "kafka down") "user-events" (some "body") (some wUserEvent)
      2 "41").fst = Except.error "kafka down") :=
  ⟨c7_amended.1 "kafka down" "user-events"
      { originalTopic := "user-events", partition := 2, offset := "41",
        reason := "boom" },
   c7_amended.2.1 (some "kafka down") "user-events" "boom" 2 "41",
   c7_amended.2.2 wUserEnvAllFail wOrderEnvOk "kafka down" "body" wUserEvent 2 "41"
     (UserUpdateEventProcessor.userAllFail wUserEnvAllFail wUserEvent
       { topic := "user-events", partition := 2, offset := "41" }
       (fun _ => "u1@mail.com") (fun _ => "store down") (fun _ => rfl) (fun _ => rfl)
       rfl 0).1⟩

/-- C9, counterexample to "the consumer logs and drops it at the router":
a non-null but unparseable body makes `JSON.parse` throw BEFORE the `try`
block, so the handler raises instead of logging and dropping (still no
processor effects, no record, no dead-letter). -/
theorem c9_counterexample :
    NotificationProcessorService.processHighPriorityMessage wUserEnvOk wOrderEnvOk none
      "user-events" (some "not json") none 2 "41" =
      (Except.error "JSON.parse: unexpected token", []) :=
  rfl

/-- C9 amended: a message with a NULL body is logged and dropped by either
consumer handler — no processor invoked, no record, no dead-letter.  A
message with a non-null but empty or unparseable body instead makes
`JSON.parse` throw before the `try` block: the handler raises the parse
error to the broker client — still with no processor invocation, no
record and no dead-letter envelope, but it is not a logged drop. -/
theorem c9_amended :
    (∀ (uenv : UserEnv) (oenv : OrderEnv) (pf : Option String) (topic : String)
        (parsed : Option RawEvent) (p : Nat) (off : String),
      NotificationProcessorService.processHighPriorityMessage uenv oenv pf topic none
        parsed p off = (Except.ok (), [Effect.logDrop "Received null message value"])) ∧
    (∀ (penv : ProductEnv) (renv : RecEnv) (pf : Option String) (topic : String)
        (parsed : Option RawEvent) (p : Nat) (off : String),
      NotificationProcessorService.processStandardPriorityMessage penv renv pf topic
        none parsed p off =
        (Except.ok (), [Effect.logDrop "Received null message value"])) ∧
    (∀ (uenv : UserEnv) (oenv : OrderEnv) (pf : Option String) (topic s : String)
        (p : Nat) (off : String),
      NotificationProcessorService.processHighPriorityMessage uenv oenv pf topic
        (some s) none p off = (Except.error "JSON.parse: unexpected token", [])) ∧
    (∀ (penv : ProductEnv) (renv : RecEnv) (pf : Option String) (topic s : String)
        (p : Nat) (off : String),
      NotificationProcessorService.processStandardPriorityMessage penv renv pf topic
        (some s) none p off = (Except.error "JSON.parse: unexpected token", [])) :=
  ⟨fun _ _ _ _ _ _ _ => rfl, fun _ _ _ _ _ _ _ => rfl,
   fun _ _ _ _ _ _ _ => rfl, fun _ _ _ _ _ _ _ => rfl⟩

end NotificationPipeline
